import Mathlib

/-!
# Point-of-sale client: sale entry, completion validation and payment polling

A shallow embedding of `static/js/sales/process_sale.js`.

* JavaScript strings are Lean strings (sequences of characters); every character
  the code inspects (whitespace, digits, `@`, `.`, `-`, `(`, `)`) lies in the
  Basic Multilingual Plane, where code units and characters coincide.
* The DOM is explicit state: the elements the code reads and writes are fields
  of structures, `fetch` appends to a list of issued requests, and
  `showNotification` appends to a list of notifications.
* Asynchronous code is split at its suspension points: one function for the
  synchronous part of a call, one for each response handler.
-/

namespace BeiZuriPos

/-! ## Regular expressions, as used by `RegExp.prototype.test` -/

/-- Regular expressions over character classes. -/
inductive Regex where
  | empty : Regex
  | eps : Regex
  | cls : (Char → Bool) → Regex
  | seq : Regex → Regex → Regex
  | alt : Regex → Regex → Regex
  | star : Regex → Regex

namespace Regex

/-- Whether the expression accepts the empty string. -/
def nullable : Regex → Bool
  | empty => false
  | eps => true
  | cls _ => false
  | seq a b => a.nullable && b.nullable
  | alt a b => a.nullable || b.nullable
  | star _ => true

/-- Brzozowski derivative: what remains to be matched after reading `c`. -/
def deriv : Regex → Char → Regex
  | empty, _ => empty
  | eps, _ => empty
  | cls p, c => if p c then eps else empty
  | seq a b, c =>
    if a.nullable then alt (seq (a.deriv c) b) (b.deriv c) else seq (a.deriv c) b
  | alt a b, c => alt (a.deriv c) (b.deriv c)
  | star a, c => seq (a.deriv c) (star a)

/-- Anchored match `^r$` of a whole character sequence. -/
def accepts (r : Regex) (cs : List Char) : Bool :=
  (cs.foldl deriv r).nullable

/-- The quantifier `r+`. -/
def plus (r : Regex) : Regex := seq r (star r)

/-- Exactly `n` copies: `r{n}`. -/
def rep (r : Regex) : Nat → Regex
  | 0 => eps
  | n + 1 => seq r (rep r n)

/-- At most `n` copies: `r{0,n}`. -/
def upTo (r : Regex) : Nat → Regex
  | 0 => eps
  | n + 1 => alt eps (seq r (upTo r n))

/-- The bounded quantifier `r{lo,hi}`. -/
def range (r : Regex) (lo hi : Nat) : Regex :=
  seq (rep r lo) (upTo r (hi - lo))

/-- Language of a regular expression. -/
inductive Matches : Regex → List Char → Prop
  | eps : Matches eps []
  | cls (p : Char → Bool) (c : Char) : p c = true → Matches (cls p) [c]
  | seq (a b : Regex) (u v : List Char) :
      Matches a u → Matches b v → Matches (seq a b) (u ++ v)
  | altL (a b : Regex) (u : List Char) : Matches a u → Matches (alt a b) u
  | altR (a b : Regex) (u : List Char) : Matches b u → Matches (alt a b) u
  | starNil (a : Regex) : Matches (star a) []
  | starCons (a : Regex) (u v : List Char) :
      Matches a u → Matches (star a) v → Matches (star a) (u ++ v)

end Regex

/-! ## JavaScript string helpers -/

/-- The characters matched by `\s` and stripped by `String.prototype.trim`:
white space and line terminators of ECMAScript. -/
def isJsSpace (c : Char) : Bool :=
  let n := c.toNat
  n == 9 || n == 10 || n == 11 || n == 12 || n == 13 || n == 32 || n == 160 ||
  n == 5760 || (8192 ≤ n && n ≤ 8202) || n == 8232 || n == 8233 || n == 8239 ||
  n == 8287 || n == 12288 || n == 65279

/-- Models `String.prototype.trim` on the character sequence. -/
def trimChars (cs : List Char) : List Char :=
  ((cs.dropWhile isJsSpace).reverse.dropWhile isJsSpace).reverse

/-- Models `s.trim()`. -/
def jsTrim (s : String) : String := String.mk (trimChars s.data)

/-! ## `validateEmail` and `validatePhone` -/

/-- The class `[^\s@]`. -/
def notSpaceAt (c : Char) : Bool := !(isJsSpace c) && c != '@'

/-- The regex `/^[^\s@]+@[^\s@]+\.[^\s@]+$/`. -/
def emailRegex : Regex :=
  .seq (.plus (.cls notSpaceAt))
    (.seq (.cls (fun c => c == '@'))
      (.seq (.plus (.cls notSpaceAt))
        (.seq (.cls (fun c => c == '.')) (.plus (.cls notSpaceAt)))))

/-- Models `validateEmail(email)`. -/
def validateEmail (email : String) : Bool :=
  emailRegex.accepts email.data

/-- The class `[\s\-\(\)]` removed from a phone number before matching. -/
def isPhoneSeparator (c : Char) : Bool :=
  isJsSpace c || c == '-' || c == '(' || c == ')'

/-- Models `phone.replace(/[\s\-\(\)]/g, "")` on the character sequence. -/
def stripPhone (cs : List Char) : List Char :=
  cs.filter (fun c => !(isPhoneSeparator c))

/-- The regex `/^[0-9]{10,15}$/`. -/
def phoneRegex : Regex := .range (.cls Char.isDigit) 10 15

/-- Models `validatePhone(phone)`. -/
def validatePhone (phone : String) : Bool :=
  phoneRegex.accepts (stripPhone phone.data)

/-! ## Payment confirmation: `pollPaymentStatus` -/

/-- Models `x || fallback` for a string field of a JSON body: an absent field
(`undefined`) and the empty string are falsy. -/
def jsOrElse (x : Option String) (fallback : String) : String :=
  match x with
  | some s => if s = "" then fallback else s
  | none => fallback

/-- How one status request ends: a parsed JSON body, of which the handler reads the
fields `status` and `message` (`none`: field absent or not a string), or a rejection of
`fetch` or of `response.json()` (or a body such as `null`, on which reading `status`
throws), handled by `.catch`. -/
inductive PollResponse where
  | parsed (status : Option String) (message : Option String)
  | error
deriving DecidableEq, Repr

/-- The states of the payment confirmation session named by the specification. -/
inductive PaymentOutcome where
  | awaitingPayment
  | succeeded
  | failed
  | timedOut
  | error
deriving DecidableEq, Repr

/-- The elements of the payment confirmation modal that the poll loop writes:
`#paymentCheckStatus` (text and colour), `#paymentCheckMessage`, the `visible` class of
`#paymentActions` and the animation of `.payment-icon-large`. -/
structure PaymentModal where
  statusText : String
  statusColor : String
  messageText : String
  actionsVisible : Bool
  iconAnimation : String
deriving DecidableEq, Repr

/-- State of one call of `pollPaymentStatus`: the closure variable `attempts`, the status
requests issued so far (their URLs, oldest first), whether a `setTimeout(poll, 5000)` is
pending, whether the 2000 ms timer that leads to `completeSaleAfterPayment` is pending, and
the branch of the state machine taken last. -/
structure PollState extends PaymentModal where
  attempts : Nat
  requests : List String
  pollTimer : Bool
  completionTimer : Bool
  outcome : PaymentOutcome
deriving DecidableEq, Repr

/-- The constant `maxAttempts`. -/
def maxAttempts : Nat := 60

/-- URL of the status request for a transaction reference. -/
def statusUrl (transactionReference : String) : String :=
  "/payments/check-payment-status/?transaction_reference=" ++ transactionReference

/-- The `.then((data) => ...)` and `.catch(...)` handlers of one status request. -/
def onPollResponse (s : PollState) : PollResponse → PollState
  | .parsed status message =>
    if status = some "SUCCESS" then
      { s with
        statusText := "Payment Received!"
        statusColor := "#27ae60"
        messageText := "Completing sale and printing receipt..."
        completionTimer := true
        outcome := .succeeded }
    else if status = some "FAILED" then
      { s with
        statusText := "Payment Failed"
        statusColor := "#e74c3c"
        messageText := jsOrElse message "Payment was not successful"
        actionsVisible := true
        iconAnimation := "none"
        outcome := .failed }
    else if s.attempts ≥ maxAttempts then
      { s with
        statusText := "Payment Timeout"
        statusColor := "#e74c3c"
        messageText := "Payment verification timed out. Please try again."
        actionsVisible := true
        iconAnimation := "none"
        outcome := .timedOut }
    else
      { s with
        statusText := "Waiting for Payment"
        messageText :=
          "Checking payment status... (" ++ toString s.attempts ++ "/" ++
            toString maxAttempts ++ ")"
        pollTimer := true }
  | .error =>
    if s.attempts ≥ maxAttempts then
      { s with
        statusText := "Error"
        statusColor := "#e74c3c"
        messageText := "Error checking payment status"
        actionsVisible := true
        iconAnimation := "none"
        outcome := .error }
    else
      { s with pollTimer := true }

/-- One run of the closure `poll` together with the handling of its response:
`attempts++`, the `fetch` of the status URL, then the handler. The timer that started
this run (if any) is no longer pending. -/
def pollOnce (transactionReference : String) (s : PollState) (r : PollResponse) : PollState :=
  onPollResponse
    { s with
      attempts := s.attempts + 1
      requests := s.requests ++ [statusUrl transactionReference]
      pollTimer := false } r

/-- The poll loop: `poll` runs, and runs again (after 5000 ms) as long as its handler
scheduled it. `responses i` is how the request number `i + 1` ends. -/
def poll (transactionReference : String) (responses : Nat → PollResponse)
    (s : PollState) : PollState :=
  if (pollOnce transactionReference s (responses s.attempts)).pollTimer = true then
    poll transactionReference responses (pollOnce transactionReference s (responses s.attempts))
  else
    pollOnce transactionReference s (responses s.attempts)
termination_by maxAttempts - s.attempts
decreasing_by
  rename_i h
  generalize responses s.attempts = r at h
  unfold pollOnce onPollResponse at h ⊢
  cases r with
  | parsed status message =>
    by_cases h1 : status = some "SUCCESS"
    · simp [h1] at h
    · by_cases h2 : status = some "FAILED"
      · simp [h1, h2] at h
      · by_cases h3 : s.attempts + 1 ≥ maxAttempts
        · simp [h1, h2, h3] at h
        · simp only [h1, h2, h3, if_false]
          omega
  | error =>
    by_cases h3 : s.attempts + 1 ≥ maxAttempts
    · simp [h3] at h
    · simp only [h3, if_false]
      omega

/-- Models `pollPaymentStatus(transactionReference)`: `attempts = 0`, then the first call of
`poll`. `dom` is the payment modal as the caller left it. -/
def pollPaymentStatus (transactionReference : String) (dom : PaymentModal)
    (responses : Nat → PollResponse) : PollState :=
  poll transactionReference responses
    { toPaymentModal := dom
      attempts := 0
      requests := []
      pollTimer := false
      completionTimer := false
      outcome := .awaitingPayment }

/-- Whether a response sends the handler into its `SUCCESS` or its `FAILED` branch. -/
def PollResponse.isFinal : PollResponse → Bool
  | .parsed status _ => status == some "SUCCESS" || status == some "FAILED"
  | .error => false

/-- The payment modal as `submitSaleCompletion` leaves it when the server answers
`payment_initiated`, just before it calls `pollPaymentStatus`. -/
def initiatedModal : PaymentModal :=
  { statusText := "Payment Initiated"
    statusColor := "#f39c12"
    messageText := "Please check your phone and complete the M-PESA payment"
    actionsVisible := false
    iconAnimation := "" }

/-! ## JavaScript numbers -/

/-- A JavaScript number: `NaN`, the infinities, or a finite value, kept as the exact
rational it denotes (every finite double is one; `-0` and `0` are not told apart, which
neither comparison nor truthiness does). `parseFloat`, the one place where a decimal
string is rounded to a double, is a parameter of the code that calls it. -/
inductive JsNum where
  | nan
  | fin (q : ℚ)
  | posInf
  | negInf
deriving DecidableEq

namespace JsNum

/-- The operator `<`: false whenever an operand is `NaN`. -/
def lt : JsNum → JsNum → Bool
  | nan, _ => false
  | _, nan => false
  | fin a, fin b => decide (a < b)
  | fin _, posInf => true
  | fin _, negInf => false
  | posInf, _ => false
  | negInf, negInf => false
  | negInf, _ => true

/-- The operator `>=`: false whenever an operand is `NaN`. -/
def ge : JsNum → JsNum → Bool
  | nan, _ => false
  | _, nan => false
  | fin a, fin b => decide (b ≤ a)
  | fin _, posInf => false
  | fin _, negInf => true
  | posInf, _ => true
  | negInf, negInf => true
  | negInf, _ => false

/-- Models `x || 0` on a number: `NaN` and zero are falsy. -/
def orZero : JsNum → JsNum
  | nan => fin 0
  | fin q => if q = 0 then fin 0 else fin q
  | posInf => posInf
  | negInf => negInf

end JsNum

/-- Two decimal places of `toFixed(2)`. -/
def twoDigits (n : Nat) : String :=
  if n < 10 then "0" ++ toString n else toString n

/-- Models `x.toFixed(2)`: with `n` the integer for which `n / 100` is closest to `|x|`,
the larger one on a tie, the digits of `n` with a point before the last two, and a minus
sign when `x < 0`. (From `10 ^ 21` on JavaScript prints the number in exponent form
instead; amounts of money stay far below.) -/
def toFixed2 : JsNum → String
  | .nan => "NaN"
  | .posInf => "Infinity"
  | .negInf => "-Infinity"
  | .fin q =>
    let n : Nat := (Rat.floor (|q| * 100 + 1 / 2)).toNat
    (if q < 0 then "-" else "") ++ toString (n / 100) ++ "." ++ twoDigits (n % 100)

/-! ## Notifications -/

/-- One call `showNotification(message, type)`. -/
structure Notification where
  message : String
  kind : String
deriving DecidableEq, Repr

/-! ## The submit handler of `#completeSaleForm` -/

/-- The elements the submit handler reads: the hidden payment method, the money received
field, the text of `#totalValue`, and the customer fields of a debt sale. -/
structure CompletionForm where
  paymentMethod : String
  moneyReceived : String
  totalValue : String
  customerFirstName : String
  customerSecondName : String
  customerEmail : String
  customerPhone : String
deriving DecidableEq, Repr

/-- What the submit handler did: the notifications it showed and whether it reached the
call `submitSaleCompletion()`, which is where the completion request is sent; the handler
sends nothing by itself. -/
structure SubmitResult where
  notifications : List Notification
  submitCalled : Bool
deriving DecidableEq, Repr

/-- The `Cash` block of the handler: `some` notification when it returns early. -/
def cashCheck (parseFloat : String → JsNum) (f : CompletionForm) : Option Notification :=
  let moneyReceived := (parseFloat f.moneyReceived).orZero
  let total := parseFloat f.totalValue
  if moneyReceived.lt total then
    some
      { message :=
          "Amount received (" ++ toFixed2 moneyReceived ++ ") is less than total (" ++
            toFixed2 total ++ ")"
        kind := "error" }
  else none

/-- The `Debt` block of the handler: `some` notification when it returns early. -/
def debtCheck (f : CompletionForm) : Option Notification :=
  let firstName := jsTrim f.customerFirstName
  let secondName := jsTrim f.customerSecondName
  let email := jsTrim f.customerEmail
  let phone := jsTrim f.customerPhone
  if firstName = "" ∨ secondName = "" ∨ phone = "" then
    some { message := "Please fill in all required fields", kind := "error" }
  else if email ≠ "" ∧ validateEmail email = false then
    some { message := "Please enter a valid email address", kind := "error" }
  else if validatePhone phone = false then
    some { message := "Please enter a valid phone number", kind := "error" }
  else none

/-- Models the `submit` listener of `#completeSaleForm`. -/
def completeSaleFormSubmit (parseFloat : String → JsNum) (f : CompletionForm) :
    SubmitResult :=
  match (if f.paymentMethod = "Cash" then cashCheck parseFloat f else none) with
  | some n => { notifications := [n], submitCalled := false }
  | none =>
    match (if f.paymentMethod = "Debt" then debtCheck f else none) with
    | some n => { notifications := [n], submitCalled := false }
    | none => { notifications := [], submitCalled := true }

/-! ## `parseInt` and numbers written into a number input -/

/-- Value of `c` as a digit in radix 10 or 16; `none` when it is not one. -/
def digitValue (radix : Nat) (c : Char) : Option Nat :=
  let n := c.toNat
  if 48 ≤ n ∧ n ≤ 57 then some (n - 48)
  else if radix = 16 ∧ 97 ≤ n ∧ n ≤ 102 then some (n - 87)
  else if radix = 16 ∧ 65 ≤ n ∧ n ≤ 70 then some (n - 55)
  else none

/-- Reads the longest prefix of digits; the accumulator is `none` until a digit is seen. -/
def readDigits (radix : Nat) : List Char → Option Nat → Option Nat
  | [], acc => acc
  | c :: cs, acc =>
    match digitValue radix c with
    | none => acc
    | some d => readDigits radix cs (some (acc.getD 0 * radix + d))

/-- Models `parseInt(s)` without a radix argument: leading white space is skipped, a sign
is read, `0x`/`0X` selects radix 16, and the longest prefix of digits is the value;
`none` stands for `NaN`. The value is the exact integer (JavaScript rounds it to a double,
which is the same integer below `2 ^ 53`). -/
def parseInt (s : String) : Option Int :=
  let cs := s.data.dropWhile isJsSpace
  let negative : Bool := cs.head? == some '-'
  let cs :=
    match cs with
    | c :: t => if c = '-' ∨ c = '+' then t else c :: t
    | [] => []
  let hex : Bool :=
    match cs with
    | z :: x :: _ => z == '0' && (x == 'x' || x == 'X')
    | _ => false
  match (if hex then readDigits 16 (cs.drop 2) none else readDigits 10 cs none) with
  | none => none
  | some v => some (if negative then -(v : Int) else (v : Int))

/-- Models the assignment `input.value = n` for a number (the result of `parseInt`) on an
`<input type="number">`: the decimal digits of an integer; `NaN` is no valid number for
such an input and leaves it empty. -/
def numberInputValue : Option Int → String
  | none => ""
  | some n => toString n

/-! ## The sale page -/

/-- A `.qty-input` element: its value and the data attributes the code reads. -/
structure QtyInput where
  value : String
  dataItemId : String
  dataUnitPrice : String
  dataOriginalValue : String
  dataProductName : String
deriving DecidableEq, Repr

/-- A row of `#saleItemsTable`: its attributes, the name cell, the quantity input and the
two `.item-price-cell` cells (unit price, line total). -/
structure CartRow where
  dataProductId : String
  dataItemId : String
  itemName : String
  qtyInput : QtyInput
  unitPriceCell : String
  lineTotalCell : String
deriving DecidableEq, Repr

/-- A `POST` of a `FormData` body to the page URL: the appended fields, in order. -/
structure PostRequest where
  body : List (String × String)
deriving DecidableEq, Repr

/-- The sale page: the template globals `isHeld` and `csrfToken`, the cart table (its
rows, and whether the placeholder row `#emptyCartRow` is present), the two totals, the
completion button, and the effects so far: notifications shown and requests sent. -/
structure SalePage where
  isHeld : Bool
  csrfToken : String
  rows : List CartRow
  emptyCartRow : Bool
  subtotalValue : String
  totalValue : String
  completeSaleBtnDisabled : Bool
  notifications : List Notification
  requests : List PostRequest
deriving DecidableEq, Repr

/-- Models `showNotification(message, type)`. -/
def showNotification (p : SalePage) (message kind : String) : SalePage :=
  { p with notifications := p.notifications ++ [{ message := message, kind := kind }] }

/-- Models the synchronous part of `scanBarcode(barcode)`. -/
def scanBarcode (p : SalePage) (barcode : String) : SalePage :=
  if p.isHeld then showNotification p "Sale is on hold" "error"
  else
    { p with
      requests := p.requests ++
        [{ body := [("csrfmiddlewaretoken", p.csrfToken), ("action", "scan_barcode"),
            ("barcode", barcode)] }] }

/-- What the response handlers of one `update_quantity` request close over: the input
(by the position of its row), `newQty`, `originalValue` and `productName`. -/
structure PendingUpdate where
  row : Nat
  newQty : Int
  originalValue : Option Int
  productName : String
deriving DecidableEq, Repr

/-- Result of the synchronous part of `updateQuantity`: the page, and the handlers left
waiting when a request was sent. -/
structure UpdateQuantityResult where
  page : SalePage
  pending : Option PendingUpdate
deriving DecidableEq, Repr

/-- The branch `input.value = originalValue; showNotification(...)` of `updateQuantity`. -/
def rejectQuantity (p : SalePage) (i : Nat) (row : CartRow) : SalePage :=
  showNotification
    { p with
      rows := p.rows.set i
        { row with
          qtyInput :=
            { row.qtyInput with
              value := numberInputValue (parseInt row.qtyInput.dataOriginalValue) } } }
    (row.qtyInput.dataProductName ++ ": Quantity must be at least 1") "error"

/-- Models the synchronous part of `updateQuantity(input)`, `input` being the quantity
input of row `i` of the cart table. -/
def updateQuantity (p : SalePage) (i : Nat) : UpdateQuantityResult :=
  match p.rows[i]? with
  | none => { page := p, pending := none }
  | some row =>
    if jsTrim row.qtyInput.value = "" then { page := p, pending := none }
    else if p.isHeld then
      { page := showNotification p "Sale is on hold" "error", pending := none }
    else
      match parseInt row.qtyInput.value with
      | none => { page := rejectQuantity p i row, pending := none }
      | some newQty =>
        if newQty < 1 then { page := rejectQuantity p i row, pending := none }
        else if parseInt row.qtyInput.dataOriginalValue = some newQty then
          { page := p, pending := none }
        else
          { page :=
              { p with
                requests := p.requests ++
                  [{ body := [("csrfmiddlewaretoken", p.csrfToken),
                      ("action", "update_quantity"), ("item_id", row.qtyInput.dataItemId),
                      ("quantity", toString newQty)] }] }
            pending :=
              some
                { row := i
                  newQty := newQty
                  originalValue := parseInt row.qtyInput.dataOriginalValue
                  productName := row.qtyInput.dataProductName } }

/-- How an `update_quantity` request ends: a body with `success` truthy, of which the
handler reads `item_total`, `totals.subtotal` and `totals.total` through `parseFloat`
(given here as the numbers read); a body with `success` falsy and its `error` field;
or a rejection handled by `.catch`. -/
inductive UpdateQuantityReply where
  | success (itemTotal subtotal total : JsNum)
  | failure (error : Option String)
  | rejected
deriving DecidableEq

/-- The assignment `input.value = originalValue` of the failure handlers. -/
def restoreQuantity (p : SalePage) (c : PendingUpdate) : SalePage :=
  match p.rows[c.row]? with
  | none => p
  | some row =>
    { p with
      rows := p.rows.set c.row
        { row with qtyInput := { row.qtyInput with value := numberInputValue c.originalValue } } }

/-- Models the `.then((data) => ...)` and `.catch(...)` handlers of `updateQuantity`.
The handlers hold the input element itself: when its row has left the table in the
meantime, the writes to the row are not seen, and the totals are refreshed all the same. -/
def updateQuantityDone (p : SalePage) (c : PendingUpdate) : UpdateQuantityReply → SalePage
  | .success itemTotal subtotal total =>
    { p with
      rows :=
        match p.rows[c.row]? with
        | none => p.rows
        | some row =>
          p.rows.set c.row
            { row with
              lineTotalCell := toFixed2 itemTotal
              qtyInput := { row.qtyInput with dataOriginalValue := toString c.newQty } }
      subtotalValue := toFixed2 subtotal
      totalValue := toFixed2 total }
  | .failure error =>
    showNotification (restoreQuantity p c)
      (jsOrElse error (c.productName ++ ": Error updating quantity")) "error"
  | .rejected =>
    showNotification (restoreQuantity p c)
      (c.productName ++ ": Error updating quantity") "error"

/-- Models the synchronous part of `removeItem(itemId)`; `confirmed` is the answer of the
user to `confirm("Remove this item from sale?")`. -/
def removeItem (p : SalePage) (itemId : String) (confirmed : Bool) : SalePage :=
  if confirmed = false then p
  else if p.isHeld then showNotification p "Sale is on hold" "error"
  else
    { p with
      requests := p.requests ++
        [{ body := [("csrfmiddlewaretoken", p.csrfToken), ("action", "remove_item"),
            ("item_id", itemId)] }] }

/-- Example state: a cart with the single line that `updateCartUI` renders for the reply
`{product: {id: 7, name: "Soap", price: 50, quantity: 3, total: 150}, item_id: 42,
totals: {subtotal: 150, total: 150}}`, with `value` typed into its quantity input. -/
def soapPage (held : Bool) (value : String) : SalePage :=
  { isHeld := held
    csrfToken := "token"
    rows :=
      [{ dataProductId := "7"
         dataItemId := "42"
         itemName := "Soap"
         qtyInput :=
           { value := value
             dataItemId := "42"
             dataUnitPrice := "50"
             dataOriginalValue := "3"
             dataProductName := "Soap" }
         unitPriceCell := "50.00"
         lineTotalCell := "150.00" }]
    emptyCartRow := false
    subtotalValue := "150.00"
    totalValue := "150.00"
    completeSaleBtnDisabled := false
    notifications := []
    requests := [] }

/-! ## Rendering a scan reply: `updateCartUI` -/

/-- The body of a successful `scan_barcode` reply as `updateCartUI` reads it: values put
into the page as text (`String(x)`: product id, name, price, quantity, item id) and values
read through `parseFloat` (price, line total, subtotal, total). `price` and `priceText`
are the two readings of the one field `product.price`. -/
structure ScanData where
  productId : String
  productName : String
  priceText : String
  price : JsNum
  quantityText : String
  lineTotal : JsNum
  itemId : String
  subtotal : JsNum
  total : JsNum
deriving DecidableEq

/-- The branch `if (existingRow)` of `updateCartUI`: what it writes into the row. -/
def syncRow (d : ScanData) (r : CartRow) : CartRow :=
  { r with
    qtyInput :=
      { r.qtyInput with
        value := d.quantityText
        dataUnitPrice := d.priceText
        dataOriginalValue := d.quantityText
        dataProductName := d.productName }
    lineTotalCell := toFixed2 d.lineTotal }

/-- The row built by the `else` branch of `updateCartUI`. -/
def newRow (d : ScanData) : CartRow :=
  { dataProductId := d.productId
    dataItemId := d.itemId
    itemName := d.productName
    qtyInput :=
      { value := d.quantityText
        dataItemId := d.itemId
        dataUnitPrice := d.priceText
        dataOriginalValue := d.quantityText
        dataProductName := d.productName }
    unitPriceCell := toFixed2 d.price
    lineTotalCell := toFixed2 d.lineTotal }

/-- Models `tbody.querySelector('tr[data-product-id="..."]')` followed by the branch
`if (existingRow)`: the first row with that product id, rewritten by `syncRow`; `none`
when there is no such row. -/
def syncExisting (d : ScanData) : List CartRow → Option (List CartRow)
  | [] => none
  | r :: rs =>
    if r.dataProductId = d.productId then some (syncRow d r :: rs)
    else (syncExisting d rs).map (fun rs2 => r :: rs2)

/-- Models `updateCartUI(data)`. -/
def updateCartUI (p : SalePage) (d : ScanData) : SalePage :=
  { p with
    emptyCartRow := false
    rows :=
      match syncExisting d p.rows with
      | some rows => rows
      | none => p.rows ++ [newRow d]
    subtotalValue := toFixed2 d.subtotal
    totalValue := toFixed2 d.total
    completeSaleBtnDisabled := false }

/-- How a `scan_barcode` request ends. -/
inductive ScanReply where
  | success (d : ScanData)
  | failure (error : Option String)
  | rejected
deriving DecidableEq

/-- Models the `.then((data) => ...)` and `.catch(...)` handlers of `scanBarcode`. -/
def scanBarcodeDone (p : SalePage) : ScanReply → SalePage
  | .success d => updateCartUI p d
  | .failure error => showNotification p (jsOrElse error "Product not found") "error"
  | .rejected => showNotification p "Error scanning barcode" "error"

/-! ## The reply to `remove_item` -/

/-- How a `remove_item` request ends; of a successful body the handler reads
`totals.subtotal` and `totals.total` through `parseFloat`. -/
inductive RemoveReply where
  | success (subtotal total : JsNum)
  | failure (error : Option String)
  | rejected
deriving DecidableEq

/-- Models `document.querySelector('tr[data-item-id="..."]')` and `row.remove()`: the
first row with that item id leaves the table. -/
def removeRow (itemId : String) : List CartRow → List CartRow
  | [] => []
  | r :: rs => if r.dataItemId = itemId then rs else r :: removeRow itemId rs

/-- Models the `.then((data) => ...)` and `.catch(...)` handlers of `removeItem(itemId)`.
`tbody.children` are the cart rows and, when present, the placeholder row. -/
def removeItemDone (p : SalePage) (itemId : String) : RemoveReply → SalePage
  | .success subtotal total =>
    let rows := removeRow itemId p.rows
    if rows = [] ∧ p.emptyCartRow = false then
      { p with
        rows := rows
        subtotalValue := toFixed2 subtotal
        totalValue := toFixed2 total
        emptyCartRow := true
        completeSaleBtnDisabled := true }
    else
      { p with
        rows := rows
        subtotalValue := toFixed2 subtotal
        totalValue := toFixed2 total }
  | .failure error => showNotification p (jsOrElse error "Error removing item") "error"
  | .rejected => showNotification p "Error removing item" "error"

/-- The invariant of the completion button: it is disabled exactly when the cart has no
line, and the placeholder row is shown only in an empty table. -/
def CartInvariant (p : SalePage) : Prop :=
  (p.completeSaleBtnDisabled = true ↔ p.rows = []) ∧ (p.emptyCartRow = true → p.rows = [])

instance (p : SalePage) : Decidable (CartInvariant p) := by
  unfold CartInvariant
  infer_instance

/-- Example state: the page of a new sale, with the placeholder row and no cart line. -/
def emptyCartPage : SalePage :=
  { isHeld := false
    csrfToken := "token"
    rows := []
    emptyCartRow := true
    subtotalValue := "0.00"
    totalValue := "0.00"
    completeSaleBtnDisabled := true
    notifications := []
    requests := [] }

/-- Example reply: `{success: true, product: {id: 7, name: "Soap", price: 50,
quantity: 1, total: 50}, item_id: 42, totals: {subtotal: 50, total: 50}}`. -/
def soapScan : ScanData :=
  { productId := "7"
    productName := "Soap"
    priceText := "50"
    price := .fin 50
    quantityText := "1"
    lineTotal := .fin 50
    itemId := "42"
    subtotal := .fin 50
    total := .fin 50 }

/-- Example reply: product 7 scanned again after the server renamed and repriced it:
`{product: {id: 7, name: "Soap XL", price: 60, quantity: 4, total: 240}, item_id: 42,
totals: {subtotal: 240, total: 240}}`. -/
def soapAgain : ScanData :=
  { productId := "7"
    productName := "Soap XL"
    priceText := "60"
    price := .fin 60
    quantityText := "4"
    lineTotal := .fin 240
    itemId := "42"
    subtotal := .fin 240
    total := .fin 240 }

/-! ## Modals and the completion flow -/

/-- The elements of the printing modal that the flow writes: `#printerStatus` (text and
colour), `#printerMessage` and the animation of `.printer-icon-large`. -/
structure PrinterModal where
  statusText : String
  statusColor : String
  messageText : String
  iconAnimation : String
deriving DecidableEq, Repr

/-- A request sent by the completion flow: the `POST` of `submitSaleCompletion` (the
entries of `#completeSaleForm` and the appended `action`), the `POST` of
`completeSaleAfterPayment`, or the `GET` of a payment status URL. -/
inductive FlowRequest where
  | completeSale (body : List (String × String))
  | completeSaleAfterPayment (body : List (String × String))
  | status (url : String)
deriving DecidableEq, Repr

/-- The modal state of the page: the globals `selectedPaymentMethod` and `isModalActive`,
the hidden field `#payment_method_hidden`, the visibility of the four modals, the
contents of the payment and the printing modal, the requests sent, the pending timers
whose callback clears `isModalActive` and leaves the page (by their delay in ms), and the
URL the page was sent to, if any. -/
structure Checkout where
  selectedPaymentMethod : String
  isModalActive : Bool
  csrfToken : String
  paymentMethodHidden : String
  completeSaleModalDisplay : String
  printerModalActive : Bool
  paymentCheckModalActive : Bool
  paybillConfirmModalActive : Bool
  payment : PaymentModal
  printer : PrinterModal
  requests : List FlowRequest
  redirectTimers : List Nat
  navigatedTo : Option String
deriving DecidableEq, Repr

/-- Models `completeSale()`. The fields and the title of the form, which
`updateModalFields` and `updateModalTitle` rewrite, are not part of this state. -/
def completeSale (c : Checkout) : Checkout :=
  if c.selectedPaymentMethod = "PayBill" then { c with paybillConfirmModalActive := true }
  else
    { c with
      paymentMethodHidden := c.selectedPaymentMethod
      completeSaleModalDisplay := "flex" }

/-- Models `closeModal()`. -/
def closeModal (c : Checkout) : Checkout :=
  if c.isModalActive then c else { c with completeSaleModalDisplay := "none" }

/-- Models `closePrinterModal()`. -/
def closePrinterModal (c : Checkout) : Checkout :=
  if c.isModalActive then c else { c with printerModalActive := false }

/-- Models `closePaybillModal()`. -/
def closePaybillModal (c : Checkout) : Checkout :=
  { c with paybillConfirmModalActive := false }

/-- The part of `submitSaleCompletion()` that runs before its `fetch`: `closeModal()`, then
the lock and the modal of the payment method. -/
def submitSaleCompletionPrepare (c : Checkout) : Checkout :=
  let c1 := closeModal c
  if c1.paymentMethodHidden = "M-Pesa" then
    { c1 with
      isModalActive := true
      paymentCheckModalActive := true
      payment :=
        { c1.payment with
          statusText := "Initiating Payment"
          statusColor := "#f39c12"
          messageText := "Please wait while we process your request..."
          actionsVisible := false } }
  else
    { c1 with
      isModalActive := true
      printerModalActive := true
      printer :=
        { c1.printer with
          statusText := "Sending print request..."
          statusColor := "#f39c12"
          messageText := "Please wait while we print your receipt" } }

/-- Models the synchronous part of `submitSaleCompletion()`; `form` are the entries of
`new FormData(#completeSaleForm)`. -/
def submitSaleCompletion (c : Checkout) (form : List (String × String)) : Checkout :=
  { submitSaleCompletionPrepare c with
    requests := (submitSaleCompletionPrepare c).requests ++
      [.completeSale (form ++ [("action", "complete_sale")])] }

/-- The closure of one call of `pollPaymentStatus`, seen between its events: the
transaction reference, `attempts`, whether a status request awaits its response, whether
`setTimeout(poll, 5000)` is pending, whether the 2000 ms timer of the `SUCCESS` branch is
pending, and the branch taken last. -/
structure PollSession where
  transactionReference : String
  attempts : Nat
  inFlight : Bool
  pollTimer : Bool
  completionTimer : Bool
  outcome : PaymentOutcome
deriving DecidableEq, Repr

/-- The page and the poll session, if there is one. -/
structure Flow where
  ui : Checkout
  session : Option PollSession
deriving DecidableEq, Repr

/-- A run of the closure `poll` up to its `fetch`: `attempts++` and the status request. -/
def pollStart (c : Checkout) (σ : PollSession) : Checkout × PollSession :=
  ({ c with requests := c.requests ++ [.status (statusUrl σ.transactionReference)] },
   { σ with attempts := σ.attempts + 1, pollTimer := false, inFlight := true })

/-- The handlers of a status request, `onPollResponse`, run on the payment modal of the
page and the counters of the session. -/
def pollResponse (c : Checkout) (σ : PollSession) (r : PollResponse) :
    Checkout × PollSession :=
  let s := onPollResponse
    { toPaymentModal := c.payment
      attempts := σ.attempts
      requests := []
      pollTimer := false
      completionTimer := σ.completionTimer
      outcome := σ.outcome } r
  ({ c with payment := s.toPaymentModal },
   { σ with
      inFlight := false
      pollTimer := s.pollTimer
      completionTimer := s.completionTimer
      outcome := s.outcome })

/-- The callback of the 2000 ms timer of the `SUCCESS` branch: the payment modal closes,
the lock is set, the printing modal opens, and `completeSaleAfterPayment` sends the final
completion request. -/
def paymentReceivedTimer (c : Checkout) (σ : PollSession) : Checkout × PollSession :=
  ({ c with
      paymentCheckModalActive := false
      isModalActive := true
      printerModalActive := true
      printer :=
        { c.printer with
          statusText := "Printing Receipt"
          statusColor := "#f39c12"
          messageText := "Please wait while we print your receipt..." }
      requests := c.requests ++
        [.completeSaleAfterPayment
          [("csrfmiddlewaretoken", c.csrfToken), ("action", "complete_sale"),
            ("payment_method", "M-PESA"),
            ("transaction_reference", σ.transactionReference)]] },
   { σ with completionTimer := false })

/-- What can happen next in a poll session. -/
inductive SessionEvent where
  | pollTimerFires
  | response (r : PollResponse)
  | completionTimerFires
deriving DecidableEq, Repr

/-- One event of a poll session; `none` when nothing of that kind is pending. -/
def sessionStep (c : Checkout) (σ : PollSession) : SessionEvent → Option (Checkout × PollSession)
  | .pollTimerFires => if σ.pollTimer then some (pollStart c σ) else none
  | .response r => if σ.inFlight then some (pollResponse c σ r) else none
  | .completionTimerFires =>
    if σ.completionTimer then some (paymentReceivedTimer c σ) else none

/-- How the request of `submitSaleCompletion` ends: a body with `success` and
`payment_initiated` truthy (and its `transaction_reference`), a body with `success`
truthy only (and its `sale_number`), a body with `success` falsy (and its `error`), or
a rejection handled by `.catch`. -/
inductive CompletionReply where
  | initiated (transactionReference : String)
  | success (saleNumber : String)
  | failure (error : Option String)
  | rejected
deriving DecidableEq, Repr

/-- The two places that show a failed completion: the payment modal with its actions
for `M-Pesa`, the printing modal and the redirect timer for every other method. -/
def showCompletionError (c : Checkout) (paymentMethod paymentText printerText : String) :
    Checkout :=
  if paymentMethod = "M-Pesa" then
    { c with
      payment :=
        { c.payment with
          statusText := "Error"
          statusColor := "#e74c3c"
          messageText := paymentText
          actionsVisible := true
          iconAnimation := "none" } }
  else
    { c with
      printer :=
        { statusText := "Error"
          statusColor := "#e74c3c"
          messageText := printerText
          iconAnimation := "none" }
      redirectTimers := c.redirectTimers ++ [3000] }

/-- Models the `.then((data) => ...)` and `.catch(...)` handlers of
`submitSaleCompletion`; `paymentMethod` is the constant the handlers close over. On
`payment_initiated` the handler calls `pollPaymentStatus`, whose first `poll` runs at
once. -/
def submitSaleCompletionDone (c : Checkout) (paymentMethod : String) : CompletionReply → Flow
  | .initiated transactionReference =>
    let c1 : Checkout :=
      { c with
        payment :=
          { c.payment with
            statusText := "Payment Initiated"
            statusColor := "#f39c12"
            messageText := "Please check your phone and complete the M-PESA payment" } }
    let started := pollStart c1
      { transactionReference := transactionReference
        attempts := 0
        inFlight := false
        pollTimer := false
        completionTimer := false
        outcome := .awaitingPayment }
    { ui := started.1, session := some started.2 }
  | .success saleNumber =>
    { ui :=
        { c with
          printer :=
            { statusText := "Receipt Printed Successfully!"
              statusColor := "#27ae60"
              messageText := "Sale " ++ saleNumber ++ " completed successfully"
              iconAnimation := "none" }
          redirectTimers := c.redirectTimers ++ [3000] }
      session := none }
  | .failure error =>
    { ui := showCompletionError c paymentMethod
        (jsOrElse error "An error occurred while initiating payment")
        (jsOrElse error "An error occurred while completing the sale")
      session := none }
  | .rejected =>
    { ui := showCompletionError c paymentMethod
        "An error occurred while initiating payment"
        "An error occurred while completing the sale"
      session := none }

/-- The callback of a redirect timer: `isModalActive = false` and the page is sent to
`/sales/new/`. -/
def redirectTimerFires (c : Checkout) : Checkout :=
  match c.redirectTimers with
  | [] => c
  | _ :: rest =>
    { c with isModalActive := false, navigatedTo := some "/sales/new/", redirectTimers := rest }

/-- Models `retryPayment()`. -/
def retryPayment (c : Checkout) (form : List (String × String)) : Checkout :=
  submitSaleCompletion
    { c with payment := { c.payment with actionsVisible := false, iconAnimation := "" } } form

/-- Models `closePaymentModal()`. -/
def closePaymentModal (c : Checkout) : Checkout :=
  { c with
    isModalActive := false
    paymentCheckModalActive := false
    completeSaleModalDisplay := "flex" }

/-- The part of the `keydown` listener that acts on the modals: `Escape` closes the
completion and the printing modal unless the lock is set. (The rest of the listener sends
`Enter` in a quantity input to `updateQuantity` and moves the focus to the scanner field.) -/
def keydown (c : Checkout) (key : String) : Checkout :=
  if key = "Escape" ∧ c.isModalActive = false then closePrinterModal (closeModal c) else c

/-- What a click landed on, as far as `window.onclick` tells things apart. -/
inductive ClickTarget where
  | completeSaleModal
  | printerModal
  | paybillConfirmModal
  | other
deriving DecidableEq, Repr

/-- Models `window.onclick`. -/
def windowClick (c : Checkout) (target : ClickTarget) : Checkout :=
  if c.isModalActive then c
  else
    match target with
    | .completeSaleModal => closeModal c
    | .printerModal => c
    | .paybillConfirmModal => closePaybillModal c
    | .other => c

/-- Example state: the sale page as loaded, no modal open, the lock free. -/
def freshCheckout (paymentMethod : String) : Checkout :=
  { selectedPaymentMethod := paymentMethod
    isModalActive := false
    csrfToken := "token"
    paymentMethodHidden := ""
    completeSaleModalDisplay := "none"
    printerModalActive := false
    paymentCheckModalActive := false
    paybillConfirmModalActive := false
    payment :=
      { statusText := "", statusColor := "", messageText := "", actionsVisible := false,
        iconAnimation := "" }
    printer := { statusText := "", statusColor := "", messageText := "", iconAnimation := "" }
    requests := []
    redirectTimers := []
    navigatedTo := none }

/-- One event of the poll session of a flow; the flow stays as it is when nothing of
that kind is pending. -/
def Flow.step (f : Flow) (e : SessionEvent) : Flow :=
  match f.session with
  | none => f
  | some σ =>
    match sessionStep f.ui σ e with
    | none => f
    | some next => { ui := next.1, session := some next.2 }

/-- A function of the page (a click, a key, a submit) applied in a flow; it does not
see the poll session. -/
def Flow.act (f : Flow) (g : Checkout → Checkout) : Flow :=
  { f with ui := g f.ui }

/-- Example run: an `M-Pesa` sale is submitted, the server answers `payment_initiated`
with reference `TX1`, and the first status request is answered `PENDING`: the session
waits for its 5000 ms timer. -/
def waitingFlow : Flow :=
  (submitSaleCompletionDone (submitSaleCompletion (completeSale (freshCheckout "M-Pesa")) [])
    "M-Pesa" (.initiated "TX1")).step (.response (.parsed (some "PENDING") none))

/-- Example run, continued: the user closes the payment modal with `closePaymentModal()`,
the pending timer fires, the status request is answered `SUCCESS`, and the 2000 ms timer
of the `SUCCESS` branch fires. -/
def cancelledThenPaid : Flow :=
  (((waitingFlow.act closePaymentModal).step .pollTimerFires).step
    (.response (.parsed (some "SUCCESS") none))).step .completionTimerFires

/-! ## The delivery panel: `selectDeliveryGuy` -/

/-- A `.delivery-guy-item` of the list: its `data-id` and whether it has the class
`selected`. -/
structure DeliveryItem where
  dataId : String
  selected : Bool
deriving DecidableEq, Repr

/-- The elements of the delivery modal that `selectDeliveryGuy` reads and writes: the list
items, the value of `#selectedDeliveryGuyId`, the display of `#deliveryFormSection`,
whether `#assignDeliveryBtn` is disabled, and the notifications shown. -/
structure DeliveryPanel where
  items : List DeliveryItem
  selectedDeliveryGuyId : String
  formSectionDisplay : String
  assignBtnDisabled : Bool
  notifications : List Notification
deriving DecidableEq, Repr

/-- Models `document.querySelector('.delivery-guy-item[data-id="..."]')` followed by
`classList.add("selected")`: the first item with that id is marked; `none` when there is
no such item. -/
def markSelected (id : String) : List DeliveryItem → Option (List DeliveryItem)
  | [] => none
  | it :: rest =>
    if it.dataId = id then some ({ it with selected := true } :: rest)
    else (markSelected id rest).map (fun rest2 => it :: rest2)

/-- Models `selectDeliveryGuy(id, name, isBusy)`. When no item has the id, `selectedItem`
is `null` and `selectedItem.classList` throws: the statements behind it do not run. -/
def selectDeliveryGuy (d : DeliveryPanel) (id name : String) (isBusy : Bool) : DeliveryPanel :=
  if isBusy then
    { d with
      notifications := d.notifications ++
        [{ message := "This delivery guy is currently busy with another delivery",
           kind := "error" }] }
  else
    match markSelected id (d.items.map (fun it => { it with selected := false })) with
    | none => { d with items := d.items.map (fun it => { it with selected := false }) }
    | some items =>
      { d with
        items := items
        selectedDeliveryGuyId := id
        formSectionDisplay := "block"
        assignBtnDisabled := false
        notifications := d.notifications ++ [{ message := "Selected: " ++ name, kind := "info" }] }

/-- Example state: the delivery modal with three agents listed, the second one selected
before. -/
def samplePanel : DeliveryPanel :=
  { items :=
      [{ dataId := "1", selected := false }, { dataId := "2", selected := true },
        { dataId := "3", selected := false }]
    selectedDeliveryGuyId := "2"
    formSectionDisplay := "block"
    assignBtnDisabled := false
    notifications := [] }

/-! ## Theorems -/

namespace Regex

theorem nullable_iff (r : Regex) : r.nullable = true ↔ Matches r [] := by
  induction r with
  | empty => simp [nullable]; intro h; cases h
  | eps => simp [nullable]; exact Matches.eps
  | cls p => simp [nullable]; intro h; cases h
  | seq a b iha ihb =>
    simp only [nullable, Bool.and_eq_true, iha, ihb]
    constructor
    · rintro ⟨h1, h2⟩
      exact Matches.seq a b [] [] h1 h2
    · intro h
      generalize hx : ([] : List Char) = x at h
      cases h with
      | seq _ _ u v hu hv =>
        have h0 := List.append_eq_nil.mp hx.symm
        obtain ⟨rfl, rfl⟩ := h0
        exact ⟨hu, hv⟩
  | alt a b iha ihb =>
    simp only [nullable, Bool.or_eq_true, iha, ihb]
    constructor
    · rintro (h | h)
      · exact Matches.altL a b [] h
      · exact Matches.altR a b [] h
    · intro h
      cases h with
      | altL _ _ _ h => exact Or.inl h
      | altR _ _ _ h => exact Or.inr h
  | star a _ => simp [nullable]; exact Matches.starNil a

theorem not_matches_empty (s : List Char) : ¬ Matches empty s := by
  intro h; cases h

theorem matches_eps_iff (s : List Char) : Matches eps s ↔ s = [] := by
  constructor
  · intro h; cases h; rfl
  · rintro rfl; exact Matches.eps

theorem matches_cls_iff (p : Char → Bool) (s : List Char) :
    Matches (cls p) s ↔ ∃ c, s = [c] ∧ p c = true := by
  constructor
  · intro h
    cases h with
    | cls _ c hc => exact ⟨c, rfl, hc⟩
  · rintro ⟨c, rfl, hc⟩
    exact Matches.cls p c hc

theorem matches_seq_iff (a b : Regex) (s : List Char) :
    Matches (seq a b) s ↔ ∃ u v, s = u ++ v ∧ Matches a u ∧ Matches b v := by
  constructor
  · intro h
    cases h with
    | seq _ _ u v hu hv => exact ⟨u, v, rfl, hu, hv⟩
  · rintro ⟨u, v, rfl, hu, hv⟩
    exact Matches.seq a b u v hu hv

theorem matches_alt_iff (a b : Regex) (s : List Char) :
    Matches (alt a b) s ↔ Matches a s ∨ Matches b s := by
  constructor
  · intro h
    cases h with
    | altL _ _ _ h => exact Or.inl h
    | altR _ _ _ h => exact Or.inr h
  · rintro (h | h)
    · exact Matches.altL a b s h
    · exact Matches.altR a b s h

/-- A non-empty match of `a*` starts with a non-empty match of `a`. -/
theorem matches_star_cons (a : Regex) (c : Char) (s : List Char) :
    Matches (star a) (c :: s) ↔
      ∃ u v, s = u ++ v ∧ Matches a (c :: u) ∧ Matches (star a) v := by
  constructor
  · intro h
    generalize hr : star a = r at h
    generalize hx : c :: s = x at h
    induction h generalizing s with
    | eps => cases hr
    | cls p d hd => cases hr
    | seq a1 b1 u v _ _ _ _ => cases hr
    | altL a1 b1 u _ _ => cases hr
    | altR a1 b1 u _ _ => cases hr
    | starNil a1 => cases hx
    | starCons a1 u v hu hv _ ihv =>
      cases hr
      cases u with
      | nil => exact ihv s rfl hx
      | cons d u1 =>
        simp only [List.cons_append, List.cons.injEq] at hx
        obtain ⟨rfl, rfl⟩ := hx
        exact ⟨u1, v, rfl, hu, hv⟩
  · rintro ⟨u, v, rfl, hu, hv⟩
    exact Matches.starCons a (c :: u) v hu hv

theorem matches_deriv (r : Regex) (c : Char) (s : List Char) :
    Matches (r.deriv c) s ↔ Matches r (c :: s) := by
  induction r generalizing s with
  | empty => simp [deriv, not_matches_empty]
  | eps => simp [deriv, not_matches_empty, matches_eps_iff]
  | cls p =>
    by_cases hp : p c = true
    · simp only [deriv, hp, if_true, matches_eps_iff, matches_cls_iff]
      constructor
      · rintro rfl
        exact ⟨c, rfl, hp⟩
      · rintro ⟨d, hd, _⟩
        simp only [List.cons.injEq] at hd
        exact hd.2
    · simp only [deriv, hp, matches_cls_iff]
      constructor
      · intro h
        exact absurd h (not_matches_empty s)
      · rintro ⟨d, hd, hpd⟩
        simp only [List.cons.injEq] at hd
        rw [← hd.1] at hpd
        exact absurd hpd hp
  | seq a b iha ihb =>
    have key : Matches (seq a b) (c :: s) ↔
        (∃ u v, s = u ++ v ∧ Matches a (c :: u) ∧ Matches b v) ∨
        (Matches a [] ∧ Matches b (c :: s)) := by
      rw [matches_seq_iff]
      constructor
      · rintro ⟨u, v, huv, hu, hv⟩
        cases u with
        | nil =>
          simp only [List.nil_append] at huv
          subst huv
          exact Or.inr ⟨hu, hv⟩
        | cons d u1 =>
          simp only [List.cons_append, List.cons.injEq] at huv
          obtain ⟨rfl, rfl⟩ := huv
          exact Or.inl ⟨u1, v, rfl, hu, hv⟩
      · rintro (⟨u, v, rfl, hu, hv⟩ | ⟨hu, hv⟩)
        · exact ⟨c :: u, v, rfl, hu, hv⟩
        · exact ⟨[], c :: s, rfl, hu, hv⟩
    rw [key]
    by_cases hn : a.nullable = true
    · have hn1 : Matches a [] := (nullable_iff a).mp hn
      simp only [deriv, hn, if_true, matches_alt_iff, matches_seq_iff, iha, ihb, hn1,
        true_and]
    · have hn1 : ¬ Matches a [] := fun h => hn ((nullable_iff a).mpr h)
      have hn2 : a.nullable = false := by simpa using hn
      simp only [deriv, hn2, matches_seq_iff, iha, hn1, false_and, or_false]
      simp [matches_seq_iff, iha]
  | alt a b iha ihb =>
    simp only [deriv, matches_alt_iff, iha, ihb]
  | star a iha =>
    simp only [deriv, matches_seq_iff, iha, matches_star_cons]

/-- The derivative-based matcher decides membership in the language. -/
theorem accepts_iff (r : Regex) (cs : List Char) :
    r.accepts cs = true ↔ Matches r cs := by
  induction cs generalizing r with
  | nil => simpa [accepts] using nullable_iff r
  | cons c cs ih =>
    have h := ih (r.deriv c)
    simp only [accepts, List.foldl_cons] at h ⊢
    rw [h, matches_deriv]

theorem matches_rep_cls (p : Char → Bool) (n : Nat) (s : List Char) :
    Matches (rep (cls p) n) s ↔ s.length = n ∧ ∀ c ∈ s, p c = true := by
  induction n generalizing s with
  | zero =>
    simp only [rep, matches_eps_iff]
    constructor
    · rintro rfl
      simp
    · rintro ⟨h, _⟩
      exact List.length_eq_zero.mp h
  | succ n ih =>
    simp only [rep, matches_seq_iff, matches_cls_iff, ih]
    constructor
    · rintro ⟨u, v, rfl, ⟨c, rfl, hc⟩, hlen, hall⟩
      refine ⟨by simp [hlen], ?_⟩
      intro d hd
      simp only [List.singleton_append, List.mem_cons] at hd
      rcases hd with rfl | hd
      · exact hc
      · exact hall d hd
    · rintro ⟨hlen, hall⟩
      cases s with
      | nil => simp at hlen
      | cons c t =>
        refine ⟨[c], t, rfl, ⟨c, rfl, hall c (List.mem_cons_self _ _)⟩, ?_, ?_⟩
        · simpa using hlen
        · intro d hd
          exact hall d (List.mem_cons_of_mem _ hd)

theorem matches_upTo_cls (p : Char → Bool) (n : Nat) (s : List Char) :
    Matches (upTo (cls p) n) s ↔ s.length ≤ n ∧ ∀ c ∈ s, p c = true := by
  induction n generalizing s with
  | zero =>
    simp only [upTo, matches_eps_iff]
    constructor
    · rintro rfl
      simp
    · rintro ⟨h, _⟩
      exact List.length_eq_zero.mp (Nat.le_zero.mp h)
  | succ n ih =>
    simp only [upTo, matches_alt_iff, matches_eps_iff, matches_seq_iff, matches_cls_iff, ih]
    constructor
    · rintro (rfl | ⟨u, v, rfl, ⟨c, rfl, hc⟩, hlen, hall⟩)
      · simp
      · refine ⟨by simp; omega, ?_⟩
        intro d hd
        simp only [List.singleton_append, List.mem_cons] at hd
        rcases hd with rfl | hd
        · exact hc
        · exact hall d hd
    · rintro ⟨hlen, hall⟩
      cases s with
      | nil => exact Or.inl rfl
      | cons c t =>
        refine Or.inr ⟨[c], t, rfl, ⟨c, rfl, hall c (List.mem_cons_self _ _)⟩, ?_, ?_⟩
        · simp at hlen; omega
        · intro d hd
          exact hall d (List.mem_cons_of_mem _ hd)

theorem matches_range_cls (p : Char → Bool) (lo hi : Nat) (hle : lo ≤ hi) (s : List Char) :
    Matches (range (cls p) lo hi) s ↔
      (lo ≤ s.length ∧ s.length ≤ hi) ∧ ∀ c ∈ s, p c = true := by
  simp only [range, matches_seq_iff, matches_rep_cls, matches_upTo_cls]
  constructor
  · rintro ⟨u, v, rfl, ⟨hu, hau⟩, hv, hav⟩
    refine ⟨by simp; omega, ?_⟩
    intro c hc
    rcases List.mem_append.mp hc with h | h
    · exact hau c h
    · exact hav c h
  · rintro ⟨⟨h1, h2⟩, hall⟩
    refine ⟨s.take lo, s.drop lo, (List.take_append_drop lo s).symm, ⟨?_, ?_⟩, ?_, ?_⟩
    · simp; omega
    · intro c hc; exact hall c (List.mem_of_mem_take hc)
    · simp; omega
    · intro c hc; exact hall c (List.mem_of_mem_drop hc)

end Regex

/-! ### `validatePhone` -/

theorem isDigit_toNat (c : Char) : c.isDigit = true ↔ (48 ≤ c.toNat ∧ c.toNat ≤ 57) := by
  simp only [Char.isDigit, Bool.and_eq_true, decide_eq_true_eq, Char.toNat]
  constructor
  · rintro ⟨h1, h2⟩
    exact ⟨h1, h2⟩
  · rintro ⟨h1, h2⟩
    exact ⟨h1, h2⟩

theorem char_eq_iff_toNat (c d : Char) : c = d ↔ c.toNat = d.toNat := by
  constructor
  · rintro rfl; rfl
  · intro h
    apply Char.ext
    apply UInt32.ext
    exact h

theorem isDigit_not_separator (c : Char) (h : c.isDigit = true) : isPhoneSeparator c = false := by
  have hd := (isDigit_toNat c).mp h
  have e1 : ('-' : Char).toNat = 45 := rfl
  have e2 : ('(' : Char).toNat = 40 := rfl
  have e3 : (')' : Char).toNat = 41 := rfl
  simp only [isPhoneSeparator, isJsSpace, Bool.or_eq_false_iff, beq_eq_false_iff_ne, ne_eq,
    Bool.and_eq_false_imp, decide_eq_true_eq, decide_eq_false_iff_not, char_eq_iff_toNat, e1, e2, e3]
  omega

theorem stripPhone_insert (a b : List Char) (c : Char) (hc : isPhoneSeparator c = true) :
    stripPhone (a ++ c :: b) = stripPhone (a ++ b) := by
  simp [stripPhone, List.filter_append, List.filter_cons, hc]

theorem validatePhone_eq_true_iff (p : String) :
    validatePhone p = true ↔
      (10 ≤ (stripPhone p.data).length ∧ (stripPhone p.data).length ≤ 15) ∧
        ∀ c ∈ stripPhone p.data, c.isDigit = true := by
  unfold validatePhone phoneRegex
  rw [Regex.accepts_iff, Regex.matches_range_cls _ 10 15 (by decide)]

theorem isDigit_iff (c : Char) : c.isDigit = true ↔ ('0' ≤ c ∧ c ≤ '9') := by
  simp only [Char.isDigit, Bool.and_eq_true, decide_eq_true_eq]
  rfl

theorem isPhoneSeparator_iff (c : Char) :
    isPhoneSeparator c = true ↔ (isJsSpace c = true ∨ c = '-' ∨ c = '(' ∨ c = ')') := by
  simp [isPhoneSeparator, or_assoc]

theorem stripPhone_eq (cs : List Char) :
    stripPhone cs = cs.filter (fun c => !(isJsSpace c || c == '-' || c == '(' || c == ')')) := rfl

/-- C7: `validatePhone(p)` holds exactly when `p` with every whitespace character, `-`,
`(` and `)` deleted consists of ASCII digits only and has length 10 to 15; hence
it is unchanged by inserting (or deleting) such a separator anywhere, digit strings of
length 9 and 16 are rejected, and any character that is neither a digit nor a separator
(a leading `+`, say) causes rejection. -/
theorem validatePhone_spec (p : String) :
    (validatePhone p = true ↔
      ((p.data.filter (fun c => !(isJsSpace c || c == '-' || c == '(' || c == ')'))).all
          (fun c => decide ('0' ≤ c ∧ c ≤ '9')) = true ∧
        10 ≤ (p.data.filter
          (fun c => !(isJsSpace c || c == '-' || c == '(' || c == ')'))).length ∧
        (p.data.filter
          (fun c => !(isJsSpace c || c == '-' || c == '(' || c == ')'))).length ≤ 15)) ∧
    (∀ (a b : List Char) (c : Char),
      (isJsSpace c = true ∨ c = '-' ∨ c = '(' ∨ c = ')') →
        validatePhone (String.mk (a ++ c :: b)) = validatePhone (String.mk (a ++ b))) ∧
    (∀ ds : List Char, (∀ c ∈ ds, '0' ≤ c ∧ c ≤ '9') → ds.length = 9 ∨ ds.length = 16 →
        validatePhone (String.mk ds) = false) ∧
    (∀ c ∈ p.data, ¬ ('0' ≤ c ∧ c ≤ '9') →
        ¬ (isJsSpace c = true ∨ c = '-' ∨ c = '(' ∨ c = ')') → validatePhone p = false) := by
  refine ⟨?_, ?_, ?_, ?_⟩
  · rw [validatePhone_eq_true_iff, ← stripPhone_eq]
    simp only [List.all_eq_true, decide_eq_true_eq, isDigit_iff]
    tauto
  · intro a b c hc
    have h := stripPhone_insert a b c ((isPhoneSeparator_iff c).mpr hc)
    simp only [validatePhone, h]
  · intro ds hds hlen
    cases hv : validatePhone (String.mk ds) with
    | false => rfl
    | true =>
      have h := (validatePhone_eq_true_iff _).mp hv
      have hle : (stripPhone ds).length ≤ ds.length := List.length_filter_le _ _
      have hsame : stripPhone ds = ds := by
        unfold stripPhone
        apply List.filter_eq_self.mpr
        intro c hc
        have hd := hds c hc
        have hdig : c.isDigit = true := (isDigit_iff c).mpr hd
        cases hs : isPhoneSeparator c with
        | false => rfl
        | true =>
          rw [isDigit_not_separator c hdig] at hs
          cases hs
      rw [hsame] at h
      omega
  · intro c hc hnd hns
    cases hv : validatePhone p with
    | false => rfl
    | true =>
      have h := (validatePhone_eq_true_iff _).mp hv
      have hmem : c ∈ stripPhone p.data := by
        unfold stripPhone
        apply List.mem_filter.mpr
        refine ⟨hc, ?_⟩
        have : isPhoneSeparator c = false := by
          cases hs : isPhoneSeparator c with
          | false => rfl
          | true => exact absurd ((isPhoneSeparator_iff c).mp hs) hns
        simp [this]
      exact absurd ((isDigit_iff c).mp (h.2 c hmem)) hnd

/-! ### The poll loop -/

theorem poll_unfold (ref : String) (rs : Nat → PollResponse) (s : PollState) :
    poll ref rs s =
      if (pollOnce ref s (rs s.attempts)).pollTimer = true then
        poll ref rs (pollOnce ref s (rs s.attempts))
      else pollOnce ref s (rs s.attempts) := by
  rw [poll]

theorem pollOnce_success (ref : String) (s : PollState) (m : Option String) :
    pollOnce ref s (.parsed (some "SUCCESS") m) =
      { s with
        statusText := "Payment Received!"
        statusColor := "#27ae60"
        messageText := "Completing sale and printing receipt..."
        attempts := s.attempts + 1
        requests := s.requests ++ [statusUrl ref]
        pollTimer := false
        completionTimer := true
        outcome := .succeeded } := by
  simp [pollOnce, onPollResponse]

theorem pollOnce_failed (ref : String) (s : PollState) (m : Option String) :
    pollOnce ref s (.parsed (some "FAILED") m) =
      { s with
        statusText := "Payment Failed"
        statusColor := "#e74c3c"
        messageText := jsOrElse m "Payment was not successful"
        actionsVisible := true
        iconAnimation := "none"
        attempts := s.attempts + 1
        requests := s.requests ++ [statusUrl ref]
        pollTimer := false
        outcome := .failed } := by
  simp [pollOnce, onPollResponse]

theorem pollOnce_timeout (ref : String) (s : PollState) (st m : Option String)
    (h1 : st ≠ some "SUCCESS") (h2 : st ≠ some "FAILED") (h3 : maxAttempts ≤ s.attempts + 1) :
    pollOnce ref s (.parsed st m) =
      { s with
        statusText := "Payment Timeout"
        statusColor := "#e74c3c"
        messageText := "Payment verification timed out. Please try again."
        actionsVisible := true
        iconAnimation := "none"
        attempts := s.attempts + 1
        requests := s.requests ++ [statusUrl ref]
        pollTimer := false
        outcome := .timedOut } := by
  simp [pollOnce, onPollResponse, h1, h2, h3]

theorem pollOnce_waiting (ref : String) (s : PollState) (st m : Option String)
    (h1 : st ≠ some "SUCCESS") (h2 : st ≠ some "FAILED") (h3 : s.attempts + 1 < maxAttempts) :
    pollOnce ref s (.parsed st m) =
      { s with
        statusText := "Waiting for Payment"
        messageText :=
          "Checking payment status... (" ++ toString (s.attempts + 1) ++ "/" ++
            toString maxAttempts ++ ")"
        attempts := s.attempts + 1
        requests := s.requests ++ [statusUrl ref]
        pollTimer := true } := by
  have h4 : ¬ maxAttempts ≤ s.attempts + 1 := by omega
  simp [pollOnce, onPollResponse, h1, h2, h4]

theorem pollOnce_error_last (ref : String) (s : PollState)
    (h3 : maxAttempts ≤ s.attempts + 1) :
    pollOnce ref s .error =
      { s with
        statusText := "Error"
        statusColor := "#e74c3c"
        messageText := "Error checking payment status"
        actionsVisible := true
        iconAnimation := "none"
        attempts := s.attempts + 1
        requests := s.requests ++ [statusUrl ref]
        pollTimer := false
        outcome := .error } := by
  simp [pollOnce, onPollResponse, h3]

theorem pollOnce_error_retry (ref : String) (s : PollState)
    (h3 : s.attempts + 1 < maxAttempts) :
    pollOnce ref s .error =
      { s with
        attempts := s.attempts + 1
        requests := s.requests ++ [statusUrl ref]
        pollTimer := true } := by
  have h4 : ¬ maxAttempts ≤ s.attempts + 1 := by omega
  simp [pollOnce, onPollResponse, h4]

theorem isFinal_parsed_false (st m : Option String)
    (h : (PollResponse.parsed st m).isFinal = false) :
    st ≠ some "SUCCESS" ∧ st ≠ some "FAILED" := by
  simpa [PollResponse.isFinal] using h

/-- What a poll that is not final and not the last one leaves as it was. -/
theorem pollOnce_continue (ref : String) (s : PollState) (r : PollResponse)
    (hr : r.isFinal = false) (h3 : s.attempts + 1 < maxAttempts) :
    (pollOnce ref s r).pollTimer = true ∧
    (pollOnce ref s r).attempts = s.attempts + 1 ∧
    (pollOnce ref s r).requests = s.requests ++ [statusUrl ref] ∧
    (pollOnce ref s r).actionsVisible = s.actionsVisible ∧
    (pollOnce ref s r).iconAnimation = s.iconAnimation ∧
    (pollOnce ref s r).statusColor = s.statusColor ∧
    (pollOnce ref s r).completionTimer = s.completionTimer ∧
    (pollOnce ref s r).outcome = s.outcome := by
  cases r with
  | parsed st m =>
    obtain ⟨h1, h2⟩ := isFinal_parsed_false st m hr
    rw [pollOnce_waiting ref s st m h1 h2 h3]
    simp
  | error =>
    rw [pollOnce_error_retry ref s h3]
    simp

/-- Polling runs through any stretch of responses that are not final while the ceiling
is not reached. -/
theorem poll_skip (ref : String) (rs : Nat → PollResponse) (j : Nat) :
    ∀ s : PollState, s.attempts + j < maxAttempts →
      (∀ i, i < j → (rs (s.attempts + i)).isFinal = false) →
      ∃ t : PollState, poll ref rs s = poll ref rs t ∧
        t.attempts = s.attempts + j ∧
        t.requests = s.requests ++ List.replicate j (statusUrl ref) ∧
        t.actionsVisible = s.actionsVisible ∧
        t.iconAnimation = s.iconAnimation ∧
        t.statusColor = s.statusColor ∧
        t.completionTimer = s.completionTimer ∧
        t.outcome = s.outcome := by
  induction j with
  | zero =>
    intro s _ _
    exact ⟨s, rfl, by simp, by simp, rfl, rfl, rfl, rfl, rfl⟩
  | succ j ih =>
    intro s hlt hnf
    have h0 : (rs s.attempts).isFinal = false := by simpa using hnf 0 (by omega)
    obtain ⟨c1, c2, c3, c4, c5, c6, c7, c8⟩ :=
      pollOnce_continue ref s (rs s.attempts) h0 (by omega)
    obtain ⟨t, e, t2, t3, t4, t5, t6, t7, t8⟩ :=
      ih (pollOnce ref s (rs s.attempts)) (by rw [c2]; omega) (by
        intro i hi
        rw [c2]
        have := hnf (i + 1) (by omega)
        rwa [show s.attempts + (i + 1) = s.attempts + 1 + i by omega] at this)
    refine ⟨t, ?_, ?_, ?_, ?_, ?_, ?_, ?_, ?_⟩
    · rw [poll_unfold, if_pos c1, e]
    · rw [t2, c2]; omega
    · rw [t3, c3, List.append_assoc, List.replicate_succ]; rfl
    · rw [t4, c4]
    · rw [t5, c5]
    · rw [t6, c6]
    · rw [t7, c7]
    · rw [t8, c8]

theorem poll_stop (ref : String) (rs : Nat → PollResponse) (s : PollState)
    (h : (pollOnce ref s (rs s.attempts)).pollTimer = false) :
    poll ref rs s = pollOnce ref s (rs s.attempts) := by
  rw [poll_unfold, if_neg (by simp [h])]

theorem isFinal_false_of (r : PollResponse)
    (h : ∀ st m, r = .parsed st m → st ≠ some "SUCCESS" ∧ st ≠ some "FAILED") :
    r.isFinal = false := by
  cases r with
  | parsed st m =>
    obtain ⟨h1, h2⟩ := h st m rfl
    simp [PollResponse.isFinal, h1, h2]
  | error => rfl

/-- The state in which `pollPaymentStatus` calls `poll` for the first time. -/
theorem pollPaymentStatus_eq (ref : String) (dom : PaymentModal) (rs : Nat → PollResponse) :
    pollPaymentStatus ref dom rs =
      poll ref rs
        { toPaymentModal := dom, attempts := 0, requests := [], pollTimer := false,
          completionTimer := false, outcome := .awaitingPayment } := rfl

/-- The run up to, and excluding, poll number `k`, when no earlier response is final. -/
theorem pollPaymentStatus_skip (ref : String) (dom : PaymentModal) (rs : Nat → PollResponse)
    (k : Nat) (hk1 : 1 ≤ k) (hk : k ≤ maxAttempts)
    (hprev : ∀ i, i < k - 1 → (rs i).isFinal = false) :
    ∃ t : PollState, pollPaymentStatus ref dom rs = poll ref rs t ∧
      t.attempts = k - 1 ∧
      t.requests = List.replicate (k - 1) (statusUrl ref) ∧
      t.actionsVisible = dom.actionsVisible ∧
      t.iconAnimation = dom.iconAnimation ∧
      t.statusColor = dom.statusColor ∧
      t.completionTimer = false ∧
      t.outcome = .awaitingPayment := by
  obtain ⟨t, e, t2, t3, t4, t5, t6, t7, t8⟩ :=
    poll_skip ref rs (k - 1)
      { toPaymentModal := dom, attempts := 0, requests := [], pollTimer := false,
        completionTimer := false, outcome := .awaitingPayment }
      (by simp only []; omega)
      (by intro i hi; simpa using hprev i hi)
  refine ⟨t, by rw [pollPaymentStatus_eq, e], ?_, ?_, t4, t5, t6, t7, t8⟩
  · simpa using t2
  · simpa using t3

/-- C1: polling stops at the first final status. If the first `k - 1` responses
(`1 ≤ k ≤ 60`) are neither `SUCCESS` nor `FAILED` and response `k` is `SUCCESS`, exactly
`k` status requests are issued, no further poll is scheduled and the session is
Succeeded (the timer towards the final completion request is pending); if response `k`
is `FAILED`, the same holds with outcome Failed and the retry/cancel actions visible. -/
theorem pollPaymentStatus_stops_at_final (ref : String) (dom : PaymentModal)
    (rs : Nat → PollResponse) (k : Nat) (m : Option String)
    (hk1 : 1 ≤ k) (hk : k ≤ 60)
    (hprev : ∀ i, i < k - 1 →
      ∀ st msg, rs i = .parsed st msg → st ≠ some "SUCCESS" ∧ st ≠ some "FAILED") :
    (rs (k - 1) = .parsed (some "SUCCESS") m →
      (pollPaymentStatus ref dom rs).requests = List.replicate k (statusUrl ref) ∧
      (pollPaymentStatus ref dom rs).attempts = k ∧
      (pollPaymentStatus ref dom rs).pollTimer = false ∧
      (pollPaymentStatus ref dom rs).outcome = .succeeded ∧
      (pollPaymentStatus ref dom rs).statusText = "Payment Received!" ∧
      (pollPaymentStatus ref dom rs).completionTimer = true ∧
      (pollPaymentStatus ref dom rs).actionsVisible = dom.actionsVisible) ∧
    (rs (k - 1) = .parsed (some "FAILED") m →
      (pollPaymentStatus ref dom rs).requests = List.replicate k (statusUrl ref) ∧
      (pollPaymentStatus ref dom rs).attempts = k ∧
      (pollPaymentStatus ref dom rs).pollTimer = false ∧
      (pollPaymentStatus ref dom rs).outcome = .failed ∧
      (pollPaymentStatus ref dom rs).statusText = "Payment Failed" ∧
      (pollPaymentStatus ref dom rs).statusColor = "#e74c3c" ∧
      (pollPaymentStatus ref dom rs).messageText = jsOrElse m "Payment was not successful" ∧
      (pollPaymentStatus ref dom rs).actionsVisible = true ∧
      (pollPaymentStatus ref dom rs).iconAnimation = "none" ∧
      (pollPaymentStatus ref dom rs).completionTimer = false) := by
  obtain ⟨t, e, t2, t3, t4, t5, t6, t7, t8⟩ :=
    pollPaymentStatus_skip ref dom rs k hk1 hk
      (fun i hi => isFinal_false_of (rs i) (hprev i hi))
  have hrep : List.replicate (k - 1) (statusUrl ref) ++ [statusUrl ref] =
      List.replicate k (statusUrl ref) := by
    rw [← List.replicate_succ']
    congr 1
    omega
  constructor
  · intro hlast
    have hstep := pollOnce_success ref t m
    rw [← hlast, ← t2] at hstep
    rw [e, poll_stop ref rs t (by rw [hstep]), hstep]
    refine ⟨?_, ?_, rfl, rfl, rfl, rfl, t4⟩
    · simp only [t3, hrep]
    · simp only [t2]; omega
  · intro hlast
    have hstep := pollOnce_failed ref t m
    rw [← hlast, ← t2] at hstep
    rw [e, poll_stop ref rs t (by rw [hstep]), hstep]
    refine ⟨?_, ?_, rfl, rfl, rfl, rfl, rfl, rfl, rfl, t7⟩
    · simp only [t3, hrep]
    · simp only [t2]; omega

/-- C1, the instance of the specification: 59 times `PENDING`, then `SUCCESS`, gives
exactly 60 polls and outcome Succeeded. -/
theorem pollPaymentStatus_stops_at_final_witness :
    (pollPaymentStatus "TX1" initiatedModal
        (fun i => if i < 59 then .parsed (some "PENDING") none
          else .parsed (some "SUCCESS") none)).requests =
        List.replicate 60 (statusUrl "TX1") ∧
      (pollPaymentStatus "TX1" initiatedModal
        (fun i => if i < 59 then .parsed (some "PENDING") none
          else .parsed (some "SUCCESS") none)).pollTimer = false ∧
      (pollPaymentStatus "TX1" initiatedModal
        (fun i => if i < 59 then .parsed (some "PENDING") none
          else .parsed (some "SUCCESS") none)).outcome = .succeeded := by
  have h := (pollPaymentStatus_stops_at_final "TX1" initiatedModal
    (fun i => if i < 59 then .parsed (some "PENDING") none
      else .parsed (some "SUCCESS") none) 60 none (by decide) (by decide)
    (by
      intro i hi st msg hst
      have hi2 : i < 59 := hi
      simp only [hi2, if_true, PollResponse.parsed.injEq] at hst
      obtain ⟨rfl, _⟩ := hst
      exact ⟨by decide, by decide⟩)).1 (by simp)
  exact ⟨h.1, h.2.2.1, h.2.2.2.1⟩

/-- C2: when each of the first 60 responses is a parsed body whose status is neither
`SUCCESS` nor `FAILED`, exactly 60 status requests are issued, no 61st poll is scheduled,
and the outcome is TimedOut, shown like Failed: status text set, red status colour, icon
animation stopped, retry/cancel actions visible. -/
theorem pollPaymentStatus_timeout (ref : String) (dom : PaymentModal)
    (rs : Nat → PollResponse)
    (hall : ∀ i, i < 60 →
      ∃ st msg, rs i = .parsed st msg ∧ st ≠ some "SUCCESS" ∧ st ≠ some "FAILED") :
    (pollPaymentStatus ref dom rs).requests = List.replicate 60 (statusUrl ref) ∧
    (pollPaymentStatus ref dom rs).attempts = 60 ∧
    (pollPaymentStatus ref dom rs).pollTimer = false ∧
    (pollPaymentStatus ref dom rs).outcome = .timedOut ∧
    (pollPaymentStatus ref dom rs).statusText = "Payment Timeout" ∧
    (pollPaymentStatus ref dom rs).completionTimer = false ∧
    (∀ (s : PollState) (m : Option String),
      (pollPaymentStatus ref dom rs).statusColor =
          (pollOnce ref s (.parsed (some "FAILED") m)).statusColor ∧
        (pollPaymentStatus ref dom rs).actionsVisible =
          (pollOnce ref s (.parsed (some "FAILED") m)).actionsVisible ∧
        (pollPaymentStatus ref dom rs).iconAnimation =
          (pollOnce ref s (.parsed (some "FAILED") m)).iconAnimation ∧
        (pollPaymentStatus ref dom rs).pollTimer =
          (pollOnce ref s (.parsed (some "FAILED") m)).pollTimer) ∧
    (pollPaymentStatus ref dom rs).actionsVisible = true := by
  obtain ⟨t, e, t2, t3, t4, t5, t6, t7, t8⟩ :=
    pollPaymentStatus_skip ref dom rs 60 (by decide) (by decide)
      (fun i hi => by
        obtain ⟨st, msg, hr, h1, h2⟩ := hall i (by omega)
        rw [hr]
        simp [PollResponse.isFinal, h1, h2])
  obtain ⟨st, msg, hr, h1, h2⟩ := hall 59 (by decide)
  have hstep := pollOnce_timeout ref t st msg h1 h2 (by rw [t2]; decide)
  rw [← hr, show 59 = t.attempts from t2.symm] at hstep
  rw [e, poll_stop ref rs t (by rw [hstep]), hstep]
  refine ⟨?_, ?_, rfl, rfl, rfl, t7, ?_, rfl⟩
  · simp only [t3]; rfl
  · simp only [t2]
  · intro s m
    rw [pollOnce_failed]
    exact ⟨rfl, rfl, rfl, rfl⟩

/-- C2 at sixty `PENDING` responses. -/
theorem pollPaymentStatus_timeout_witness :
    (pollPaymentStatus "TX1" initiatedModal
        (fun _ => .parsed (some "PENDING") none)).requests.length = 60 ∧
      (pollPaymentStatus "TX1" initiatedModal
        (fun _ => .parsed (some "PENDING") none)).outcome = .timedOut := by
  have h := pollPaymentStatus_timeout "TX1" initiatedModal
    (fun _ => .parsed (some "PENDING") none)
    (fun _ _ => ⟨some "PENDING", none, rfl, by decide, by decide⟩)
  exact ⟨by rw [h.1]; rfl, h.2.2.2.1⟩

/-- The measure of the poll loop drops whenever a further poll is scheduled. -/
theorem pollOnce_measure (ref : String) (s : PollState) (r : PollResponse)
    (h : (pollOnce ref s r).pollTimer = true) :
    (pollOnce ref s r).attempts = s.attempts + 1 ∧ s.attempts + 1 < maxAttempts := by
  unfold pollOnce onPollResponse at h ⊢
  cases r with
  | parsed status message =>
    by_cases h1 : status = some "SUCCESS"
    · simp [h1] at h
    · by_cases h2 : status = some "FAILED"
      · simp [h1, h2] at h
      · by_cases h3 : s.attempts + 1 ≥ maxAttempts
        · simp [h1, h2, h3] at h
        · simp only [h1, h2, h3, if_false]
          exact ⟨trivial, by omega⟩
  | error =>
    by_cases h3 : s.attempts + 1 ≥ maxAttempts
    · simp [h3] at h
    · simp only [h3, if_false]
      exact ⟨trivial, by omega⟩

/-- What one poll does to the counters, and where it leaves the session when it
schedules no further poll. -/
theorem pollOnce_shape (ref : String) (s : PollState) (r : PollResponse) :
    (pollOnce ref s r).attempts = s.attempts + 1 ∧
    (pollOnce ref s r).requests = s.requests ++ [statusUrl ref] ∧
    ((pollOnce ref s r).pollTimer = false →
      (pollOnce ref s r).outcome = .succeeded ∨ (pollOnce ref s r).outcome = .failed ∨
      (pollOnce ref s r).outcome = .timedOut ∨ (pollOnce ref s r).outcome = .error) := by
  unfold pollOnce onPollResponse
  cases r with
  | parsed status message =>
    by_cases h1 : status = some "SUCCESS"
    · simp [h1]
    · by_cases h2 : status = some "FAILED"
      · simp [h1, h2]
      · by_cases h3 : s.attempts + 1 ≥ maxAttempts
        · simp [h1, h2, h3]
        · simp [h1, h2, h3]
  | error =>
    by_cases h3 : s.attempts + 1 ≥ maxAttempts
    · simp [h3]
    · simp [h3]

/-- Invariant of the whole loop, by induction along its recursion. -/
theorem poll_invariant (ref : String) (rs : Nat → PollResponse) (s : PollState) :
    (poll ref rs s).pollTimer = false ∧
    ((poll ref rs s).outcome = .succeeded ∨ (poll ref rs s).outcome = .failed ∨
      (poll ref rs s).outcome = .timedOut ∨ (poll ref rs s).outcome = .error) ∧
    s.attempts < (poll ref rs s).attempts ∧
    (poll ref rs s).attempts ≤ max maxAttempts (s.attempts + 1) ∧
    (poll ref rs s).requests =
      s.requests ++ List.replicate ((poll ref rs s).attempts - s.attempts) (statusUrl ref) := by
  induction s using poll.induct ref rs with
  | case1 s hc ih =>
    rw [poll_unfold, if_pos hc]
    obtain ⟨m1, m2⟩ := pollOnce_measure ref s _ hc
    obtain ⟨a1, a2, _⟩ := pollOnce_shape ref s (rs s.attempts)
    obtain ⟨i1, i2, i3, i4, i5⟩ := ih
    refine ⟨i1, i2, by omega, ?_, ?_⟩
    · rw [a1] at i4
      have : max maxAttempts (s.attempts + 1 + 1) = max maxAttempts (s.attempts + 1) := by
        rw [max_eq_left (by omega), max_eq_left (by omega)]
      rw [← this]; exact i4
    · rw [i5, a2, List.append_assoc]
      congr 1
      rw [a1] at i3 ⊢
      rw [show [statusUrl ref] = List.replicate 1 (statusUrl ref) from rfl,
        ← List.replicate_add]
      congr 1
      omega
  | case2 s hc =>
    rw [poll_unfold, if_neg hc]
    have hf : (pollOnce ref s (rs s.attempts)).pollTimer = false := by simpa using hc
    obtain ⟨a1, a2, a3⟩ := pollOnce_shape ref s (rs s.attempts)
    refine ⟨hf, a3 hf, by omega, ?_, ?_⟩
    · rw [a1]; exact le_max_right _ _
    · rw [a2, a1]
      simp

/-- The loop reads the responses below the attempt ceiling only. -/
theorem poll_congr (ref : String) (rs rs2 : Nat → PollResponse)
    (h : ∀ i, i < maxAttempts → rs2 i = rs i) (s : PollState) :
    s.attempts < maxAttempts → poll ref rs2 s = poll ref rs s := by
  induction s using poll.induct ref rs with
  | case1 s hc ih =>
    intro hlt
    obtain ⟨m1, m2⟩ := pollOnce_measure ref s _ hc
    rw [poll_unfold ref rs, poll_unfold ref rs2, h _ hlt, if_pos hc, if_pos hc]
    exact ih (by omega)
  | case2 s hc =>
    intro hlt
    rw [poll_unfold ref rs, poll_unfold ref rs2, h _ hlt, if_neg hc, if_neg hc]

/-- C3: for every sequence of poll outcomes, one call of `pollPaymentStatus` issues at
least one and at most 60 status requests and ends, with no poll scheduled, in Succeeded,
Failed, TimedOut or Error. The loop is a total function of the outcomes, of which it reads
the first 60 only, and `60 - attempts` decreases with every poll it schedules. -/
theorem pollPaymentStatus_terminates (ref : String) (dom : PaymentModal)
    (rs : Nat → PollResponse) :
    1 ≤ (pollPaymentStatus ref dom rs).requests.length ∧
    (pollPaymentStatus ref dom rs).requests.length ≤ 60 ∧
    (pollPaymentStatus ref dom rs).requests =
      List.replicate (pollPaymentStatus ref dom rs).attempts (statusUrl ref) ∧
    (pollPaymentStatus ref dom rs).pollTimer = false ∧
    ((pollPaymentStatus ref dom rs).outcome = .succeeded ∨
      (pollPaymentStatus ref dom rs).outcome = .failed ∨
      (pollPaymentStatus ref dom rs).outcome = .timedOut ∨
      (pollPaymentStatus ref dom rs).outcome = .error) ∧
    (∀ rs2 : Nat → PollResponse, (∀ i, i < 60 → rs2 i = rs i) →
      pollPaymentStatus ref dom rs2 = pollPaymentStatus ref dom rs) ∧
    (∀ (s : PollState) (r : PollResponse), (pollOnce ref s r).pollTimer = true →
      60 - (pollOnce ref s r).attempts < 60 - s.attempts) := by
  obtain ⟨i1, i2, i3, i4, i5⟩ := poll_invariant ref rs
    { toPaymentModal := dom, attempts := 0, requests := [], pollTimer := false,
      completionTimer := false, outcome := .awaitingPayment }
  rw [← pollPaymentStatus_eq] at i1 i2 i3 i4 i5
  simp only [List.nil_append, Nat.sub_zero, Nat.zero_add] at i3 i4 i5
  have hmax : max maxAttempts 1 = 60 := by decide
  rw [hmax] at i4
  refine ⟨?_, ?_, i5, i1, i2, ?_, ?_⟩
  · rw [i5, List.length_replicate]; omega
  · rw [i5, List.length_replicate]; exact i4
  · intro rs2 h
    rw [pollPaymentStatus_eq, pollPaymentStatus_eq]
    exact poll_congr ref rs rs2 h _ (Nat.succ_pos 59)
  · intro s r h
    obtain ⟨m1, m2⟩ := pollOnce_measure ref s r h
    have : maxAttempts = 60 := rfl
    omega

/-- C4: a poll that ends in a network or parse error. Below the ceiling (`n < 60`) the
handler only schedules the next poll: the modal, the outcome and the completion timer are
as before. At `n = 60` it shows Error with the retry/cancel actions visible and schedules
nothing. In a run of `pollPaymentStatus` whose first `n - 1` responses are not final, an
error at poll `n < 60` is followed by a further request, and an error at poll 60 ends the
run in Error after exactly 60 requests. -/
theorem pollOnce_error (ref : String) (s : PollState) (n : Nat) (hn : s.attempts + 1 = n) :
    (n < 60 →
      pollOnce ref s .error =
        { s with attempts := n, requests := s.requests ++ [statusUrl ref], pollTimer := true }) ∧
    (n = 60 →
      (pollOnce ref s .error).outcome = .error ∧
      (pollOnce ref s .error).statusText = "Error" ∧
      (pollOnce ref s .error).messageText = "Error checking payment status" ∧
      (pollOnce ref s .error).actionsVisible = true ∧
      (pollOnce ref s .error).pollTimer = false ∧
      (pollOnce ref s .error).requests = s.requests ++ [statusUrl ref]) ∧
    (∀ (dom : PaymentModal) (rs : Nat → PollResponse),
      (∀ i, i < n - 1 →
        ∀ st msg, rs i = .parsed st msg → st ≠ some "SUCCESS" ∧ st ≠ some "FAILED") →
      rs (n - 1) = .error →
      (n < 60 → n + 1 ≤ (pollPaymentStatus ref dom rs).requests.length) ∧
      (n = 60 →
        (pollPaymentStatus ref dom rs).outcome = .error ∧
        (pollPaymentStatus ref dom rs).actionsVisible = true ∧
        (pollPaymentStatus ref dom rs).pollTimer = false ∧
        (pollPaymentStatus ref dom rs).requests = List.replicate 60 (statusUrl ref))) := by
  refine ⟨?_, ?_, ?_⟩
  · intro hlt
    rw [pollOnce_error_retry ref s (by rw [hn]; exact hlt), hn]
  · intro h60
    rw [pollOnce_error_last ref s (by rw [hn, h60]; decide)]
    exact ⟨rfl, rfl, rfl, rfl, rfl, rfl⟩
  · intro dom rs hprev hlast
    have hn1 : 1 ≤ n := by omega
    constructor
    · intro hlt
      obtain ⟨t, e, t2, t3, -⟩ :=
        pollPaymentStatus_skip ref dom rs (n + 1) (by omega) (by
          have : maxAttempts = 60 := rfl
          omega)
          (fun i hi => by
            by_cases hi2 : i < n - 1
            · exact isFinal_false_of (rs i) (hprev i hi2)
            · have : i = n - 1 := by omega
              rw [this, hlast]; rfl)
      obtain ⟨-, -, i3, -, i5⟩ := poll_invariant ref rs t
      rw [e, i5, List.length_append, t3, List.length_replicate, List.length_replicate]
      omega
    · intro h60
      obtain ⟨t, e, t2, t3, -⟩ :=
        pollPaymentStatus_skip ref dom rs n hn1 (by rw [h60]; decide)
          (fun i hi => isFinal_false_of (rs i) (hprev i hi))
      have hstep := pollOnce_error_last ref t (by rw [t2, h60]; decide)
      rw [← hlast, ← t2] at hstep
      rw [e, poll_stop ref rs t (by rw [hstep]), hstep]
      refine ⟨rfl, rfl, rfl, ?_⟩
      simp only [t3, h60]
      rfl

/-- C4 at the 60th poll of a session that has been waiting. -/
theorem pollOnce_error_witness :
    (pollOnce "TX1"
        { toPaymentModal := initiatedModal, attempts := 59,
          requests := List.replicate 59 (statusUrl "TX1"), pollTimer := false,
          completionTimer := false, outcome := .awaitingPayment } .error).outcome = .error ∧
      (pollOnce "TX1"
        { toPaymentModal := initiatedModal, attempts := 59,
          requests := List.replicate 59 (statusUrl "TX1"), pollTimer := false,
          completionTimer := false, outcome := .awaitingPayment } .error).actionsVisible
        = true :=
  have h := ((pollOnce_error "TX1"
    { toPaymentModal := initiatedModal, attempts := 59,
      requests := List.replicate 59 (statusUrl "TX1"), pollTimer := false,
      completionTimer := false, outcome := .awaitingPayment } 60 rfl).2.1) rfl
  ⟨h.1, h.2.2.2.1⟩

/-! ### The submit handler -/

theorem JsNum.orZero_ne_nan (x : JsNum) : x.orZero ≠ .nan := by
  cases x with
  | nan => simp [JsNum.orZero]
  | fin q => by_cases h : q = 0 <;> simp [JsNum.orZero, h]
  | posInf => simp [JsNum.orZero]
  | negInf => simp [JsNum.orZero]

/-- On numbers, `a >= b` is the negation of `a < b`. -/
theorem JsNum.ge_iff_not_lt (a b : JsNum) (ha : a ≠ .nan) (hb : b ≠ .nan) :
    a.ge b = true ↔ a.lt b = false := by
  cases a <;> cases b <;> simp_all [JsNum.ge, JsNum.lt]

theorem completeSaleFormSubmit_cash (parseFloat : String → JsNum) (f : CompletionForm)
    (hm : f.paymentMethod = "Cash") :
    completeSaleFormSubmit parseFloat f =
      match cashCheck parseFloat f with
      | some n => { notifications := [n], submitCalled := false }
      | none => { notifications := [], submitCalled := true } := by
  have hd : ¬ f.paymentMethod = "Debt" := by rw [hm]; decide
  simp only [completeSaleFormSubmit, hm, if_true]
  cases cashCheck parseFloat f with
  | none => simp [hd]
  | some n => rfl

/-- C5 as stated fails. When the text of `#totalValue` does not parse (`updateCartUI`
itself writes `NaN` there for a reply whose total does not parse), `moneyReceived < total`
is false for every amount and the handler submits, although the money received, here 0,
is not `>=` the total. -/
theorem completeSaleFormSubmit_cash_nan_total :
    (updateCartUI emptyCartPage { soapScan with total := .nan }).totalValue = "NaN" ∧
    (JsNum.nan.orZero).ge .nan = false ∧
    completeSaleFormSubmit (fun _ => .nan)
        { paymentMethod := "Cash", moneyReceived := "", totalValue := "NaN",
          customerFirstName := "", customerSecondName := "", customerEmail := "",
          customerPhone := "" } =
      { notifications := [], submitCalled := true } := by
  decide

/-- C5, amended: for the Cash method the handler reaches `submitSaleCompletion` exactly
when the money received, read with `parseFloat` and taken as 0 when that gives `NaN`, is
not `<` the displayed total. For a displayed total that is a number this is: the money
received is `>=` the total; for a displayed total that does not parse the handler always
submits. When the money received is less, nothing is submitted and the one error shown is
`Amount received (R) is less than total (T)` with both numbers printed by `toFixed(2)`. -/
theorem completeSaleFormSubmit_cash_spec (parseFloat : String → JsNum) (f : CompletionForm)
    (hm : f.paymentMethod = "Cash") :
    ((completeSaleFormSubmit parseFloat f).submitCalled = true ↔
      ((parseFloat f.moneyReceived).orZero).lt (parseFloat f.totalValue) = false) ∧
    (parseFloat f.totalValue ≠ .nan →
      ((completeSaleFormSubmit parseFloat f).submitCalled = true ↔
        ((parseFloat f.moneyReceived).orZero).ge (parseFloat f.totalValue) = true)) ∧
    (parseFloat f.totalValue = .nan →
      completeSaleFormSubmit parseFloat f = { notifications := [], submitCalled := true }) ∧
    (((parseFloat f.moneyReceived).orZero).lt (parseFloat f.totalValue) = true →
      completeSaleFormSubmit parseFloat f =
        { notifications :=
            [{ message :=
                "Amount received (" ++ toFixed2 ((parseFloat f.moneyReceived).orZero) ++
                  ") is less than total (" ++ toFixed2 (parseFloat f.totalValue) ++ ")"
               kind := "error" }]
          submitCalled := false }) ∧
    (parseFloat f.moneyReceived = .nan → (parseFloat f.moneyReceived).orZero = .fin 0) ∧
    (∀ r t : ℚ, (parseFloat f.moneyReceived).orZero = .fin r →
      parseFloat f.totalValue = .fin t →
      ((completeSaleFormSubmit parseFloat f).submitCalled = true ↔ t ≤ r)) := by
  have hsub : (completeSaleFormSubmit parseFloat f).submitCalled = true ↔
      ((parseFloat f.moneyReceived).orZero).lt (parseFloat f.totalValue) = false := by
    rw [completeSaleFormSubmit_cash parseFloat f hm]
    unfold cashCheck
    cases hlt : ((parseFloat f.moneyReceived).orZero).lt (parseFloat f.totalValue) <;>
      simp [hlt]
  refine ⟨hsub, ?_, ?_, ?_, ?_, ?_⟩
  · intro ht
    rw [hsub, JsNum.ge_iff_not_lt _ _ (JsNum.orZero_ne_nan _) ht]
  · intro ht
    have hlt : ((parseFloat f.moneyReceived).orZero).lt (parseFloat f.totalValue) = false := by
      rw [ht]
      cases (parseFloat f.moneyReceived).orZero <;> rfl
    rw [completeSaleFormSubmit_cash parseFloat f hm]
    unfold cashCheck
    simp [hlt]
  · intro hlt
    rw [completeSaleFormSubmit_cash parseFloat f hm]
    unfold cashCheck
    simp [hlt]
  · intro hnan
    rw [hnan]; rfl
  · intro r t hr htt
    rw [hsub, hr, htt]
    simp [JsNum.lt]

/-- C5, amended, at money received `40` against a displayed total `50.00`: blocked, with
the message of the specification; `parseFloat` is given on the two strings it is applied
to. -/
theorem completeSaleFormSubmit_cash_spec_witness :
    completeSaleFormSubmit
        (fun s => if s = "40" then .fin 40 else if s = "50.00" then .fin 50 else .nan)
        { paymentMethod := "Cash", moneyReceived := "40", totalValue := "50.00",
          customerFirstName := "", customerSecondName := "", customerEmail := "",
          customerPhone := "" } =
      { notifications :=
          [{ message := "Amount received (40.00) is less than total (50.00)",
             kind := "error" }]
        submitCalled := false } := by
  have h := (completeSaleFormSubmit_cash_spec
    (fun s => if s = "40" then .fin 40 else if s = "50.00" then .fin 50 else .nan)
    { paymentMethod := "Cash", moneyReceived := "40", totalValue := "50.00",
      customerFirstName := "", customerSecondName := "", customerEmail := "",
      customerPhone := "" } rfl).2.2.2.1 (by decide)
  rw [h]
  decide!

theorem completeSaleFormSubmit_debt (parseFloat : String → JsNum) (f : CompletionForm)
    (hm : f.paymentMethod = "Debt") :
    completeSaleFormSubmit parseFloat f =
      match debtCheck f with
      | some n => { notifications := [n], submitCalled := false }
      | none => { notifications := [], submitCalled := true } := by
  have hc : ¬ f.paymentMethod = "Cash" := by rw [hm]; decide
  unfold completeSaleFormSubmit
  rw [if_neg hc, if_pos hm]

/-- C6: for the Debt method the handler reaches `submitSaleCompletion` exactly when the
trimmed first name, second name and phone are non-empty, the trimmed email is empty or
passes `validateEmail`, and the trimmed phone passes `validatePhone`. Otherwise nothing
is submitted and exactly one error is shown: for a missing required field first, else
for the email, else for the phone. -/
theorem completeSaleFormSubmit_debt_spec (parseFloat : String → JsNum) (f : CompletionForm)
    (hm : f.paymentMethod = "Debt") :
    ((completeSaleFormSubmit parseFloat f).submitCalled = true ↔
      (jsTrim f.customerFirstName ≠ "" ∧ jsTrim f.customerSecondName ≠ "" ∧
        jsTrim f.customerPhone ≠ "" ∧
        (jsTrim f.customerEmail = "" ∨ validateEmail (jsTrim f.customerEmail) = true) ∧
        validatePhone (jsTrim f.customerPhone) = true)) ∧
    ((completeSaleFormSubmit parseFloat f).submitCalled = true →
      (completeSaleFormSubmit parseFloat f).notifications = []) ∧
    ((completeSaleFormSubmit parseFloat f).submitCalled = false →
      (completeSaleFormSubmit parseFloat f).notifications =
        [if jsTrim f.customerFirstName = "" ∨ jsTrim f.customerSecondName = "" ∨
            jsTrim f.customerPhone = "" then
          { message := "Please fill in all required fields", kind := "error" }
        else if jsTrim f.customerEmail ≠ "" ∧
            validateEmail (jsTrim f.customerEmail) = false then
          { message := "Please enter a valid email address", kind := "error" }
        else { message := "Please enter a valid phone number", kind := "error" }]) := by
  rw [completeSaleFormSubmit_debt parseFloat f hm]
  unfold debtCheck
  by_cases h1 : jsTrim f.customerFirstName = "" ∨ jsTrim f.customerSecondName = "" ∨
      jsTrim f.customerPhone = ""
  · rw [if_pos h1, if_pos h1]
    refine ⟨⟨fun h => Bool.noConfusion h, ?_⟩, fun h => Bool.noConfusion h, fun _ => rfl⟩
    rintro ⟨a, b, c, -⟩
    rcases h1 with h | h | h
    · exact absurd h a
    · exact absurd h b
    · exact absurd h c
  · rw [if_neg h1, if_neg h1]
    have h1' := h1
    simp only [not_or] at h1'
    obtain ⟨a, b, c⟩ := h1'
    by_cases h2 : jsTrim f.customerEmail ≠ "" ∧ validateEmail (jsTrim f.customerEmail) = false
    · rw [if_pos h2, if_pos h2]
      refine ⟨⟨fun h => Bool.noConfusion h, ?_⟩, fun h => Bool.noConfusion h, fun _ => rfl⟩
      rintro ⟨-, -, -, he, -⟩
      rcases he with he | he
      · exact absurd he h2.1
      · rw [h2.2] at he; cases he
    · rw [if_neg h2, if_neg h2]
      by_cases h3 : validatePhone (jsTrim f.customerPhone) = false
      · rw [if_pos h3]
        refine ⟨⟨fun h => Bool.noConfusion h, ?_⟩, fun h => Bool.noConfusion h, fun _ => rfl⟩
        rintro ⟨-, -, -, -, hp⟩
        rw [h3] at hp; cases hp
      · rw [if_neg h3]
        refine ⟨⟨fun _ => ?_, fun _ => rfl⟩, fun _ => rfl, fun h => Bool.noConfusion h⟩
        refine ⟨a, b, c, ?_, by simpa using h3⟩
        by_cases he : jsTrim f.customerEmail = ""
        · exact Or.inl he
        · right
          have : ¬ validateEmail (jsTrim f.customerEmail) = false := fun hv => h2 ⟨he, hv⟩
          simpa using this

/-- C6 on the examples of the specification: the email `foo` blocks, the phone `12345`
blocks, the phone `0712345678` passes. -/
theorem completeSaleFormSubmit_debt_spec_witness :
    (completeSaleFormSubmit (fun _ => .nan)
        { paymentMethod := "Debt", moneyReceived := "", totalValue := "50.00",
          customerFirstName := "Jane", customerSecondName := "Doe", customerEmail := "foo",
          customerPhone := "0712345678" }).submitCalled = false ∧
    (completeSaleFormSubmit (fun _ => .nan)
        { paymentMethod := "Debt", moneyReceived := "", totalValue := "50.00",
          customerFirstName := "Jane", customerSecondName := "Doe", customerEmail := "",
          customerPhone := "12345" }).submitCalled = false ∧
    (completeSaleFormSubmit (fun _ => .nan)
        { paymentMethod := "Debt", moneyReceived := "", totalValue := "50.00",
          customerFirstName := " Jane ", customerSecondName := "Doe", customerEmail := "",
          customerPhone := "0712345678" }).submitCalled = true := by
  refine ⟨?_, ?_, ?_⟩
  · have h := (completeSaleFormSubmit_debt_spec (fun _ => .nan)
      { paymentMethod := "Debt", moneyReceived := "", totalValue := "50.00",
        customerFirstName := "Jane", customerSecondName := "Doe", customerEmail := "foo",
        customerPhone := "0712345678" } rfl).1
    cases hs : (completeSaleFormSubmit (fun _ => .nan)
      { paymentMethod := "Debt", moneyReceived := "", totalValue := "50.00",
        customerFirstName := "Jane", customerSecondName := "Doe", customerEmail := "foo",
        customerPhone := "0712345678" }).submitCalled with
    | false => rfl
    | true =>
      have h4 := (h.mp hs).2.2.2.1
      revert h4
      decide
  · have h := (completeSaleFormSubmit_debt_spec (fun _ => .nan)
      { paymentMethod := "Debt", moneyReceived := "", totalValue := "50.00",
        customerFirstName := "Jane", customerSecondName := "Doe", customerEmail := "",
        customerPhone := "12345" } rfl).1
    cases hs : (completeSaleFormSubmit (fun _ => .nan)
      { paymentMethod := "Debt", moneyReceived := "", totalValue := "50.00",
        customerFirstName := "Jane", customerSecondName := "Doe", customerEmail := "",
        customerPhone := "12345" }).submitCalled with
    | false => rfl
    | true =>
      have h5 := (h.mp hs).2.2.2.2
      revert h5
      decide
  · exact (completeSaleFormSubmit_debt_spec (fun _ => .nan)
      { paymentMethod := "Debt", moneyReceived := "", totalValue := "50.00",
        customerFirstName := " Jane ", customerSecondName := "Doe", customerEmail := "",
        customerPhone := "0712345678" } rfl).1.mpr (by decide)

/-! ### `parseInt` reads back the integers the code writes -/

/-- A decimal digit has its digit value in radix 10. -/
theorem digitValue_of_isDigit (c : Char) (h : c.isDigit = true) :
    digitValue 10 c = some (c.toNat - 48) := by
  have hd := (isDigit_toNat c).mp h
  simp [digitValue, hd]

theorem readDigits_some (ds : List Char) (hall : ∀ c ∈ ds, c.isDigit = true) (a : Nat) :
    readDigits 10 ds (some a) = some (ds.foldl (fun v c => v * 10 + (c.toNat - 48)) a) := by
  induction ds generalizing a with
  | nil => rfl
  | cons c cs ih =>
    have hc := digitValue_of_isDigit c (hall c (List.mem_cons_self _ _))
    simp only [readDigits, hc, Option.getD_some, List.foldl_cons]
    exact ih (fun d hd => hall d (List.mem_cons_of_mem _ hd)) _

theorem readDigits_none (ds : List Char) (hne : ds ≠ []) (hall : ∀ c ∈ ds, c.isDigit = true) :
    readDigits 10 ds none = some (ds.foldl (fun v c => v * 10 + (c.toNat - 48)) 0) := by
  cases ds with
  | nil => exact absurd rfl hne
  | cons c cs =>
    have hc := digitValue_of_isDigit c (hall c (List.mem_cons_self _ _))
    simp only [readDigits, hc, Option.getD_none, List.foldl_cons]
    exact readDigits_some cs (fun d hd => hall d (List.mem_cons_of_mem _ hd)) _

theorem isDigit_not_space (c : Char) (h : c.isDigit = true) : isJsSpace c = false := by
  have hs := isDigit_not_separator c h
  simp only [isPhoneSeparator, Bool.or_eq_false_iff] at hs
  exact hs.1.1.1

theorem isDigit_ne (c d : Char) (h : c.isDigit = true) (hd : d.toNat < 48 ∨ 57 < d.toNat) :
    c ≠ d := by
  have hc := (isDigit_toNat c).mp h
  intro e
  rw [e] at hc
  omega

theorem parseInt_digits (ds : List Char) (hne : ds ≠ []) (hall : ∀ c ∈ ds, c.isDigit = true) :
    parseInt (String.mk ds) =
      some ((ds.foldl (fun v c => v * 10 + (c.toNat - 48)) 0 : Nat) : Int) := by
  cases ds with
  | nil => exact absurd rfl hne
  | cons c t =>
    have hc : c.isDigit = true := hall c (List.mem_cons_self _ _)
    have hsp : isJsSpace c = false := isDigit_not_space c hc
    have hminus : c ≠ '-' := isDigit_ne c '-' hc (Or.inl (by decide))
    have hplus : c ≠ '+' := isDigit_ne c '+' hc (Or.inl (by decide))
    have hhex : (match c :: t with
        | z :: x :: _ => z == '0' && (x == 'x' || x == 'X')
        | _ => false) = false := by
      cases t with
      | nil => rfl
      | cons x t2 =>
        have hx : x.isDigit = true := hall x (by simp)
        have h1 : x ≠ 'x' := isDigit_ne x 'x' hx (Or.inr (by decide))
        have h2 : x ≠ 'X' := isDigit_ne x 'X' hx (Or.inr (by decide))
        simp [h1, h2]
    have hhead : ((c :: t).head? == some '-') = false := by
      simp [hminus]
    unfold parseInt
    simp only [List.dropWhile_cons, hsp, Bool.false_eq_true, if_false, hminus, hplus, or_self,
      hhex, hhead]
    rw [readDigits_none (c :: t) hne hall]

theorem digitChar_isDigit (d : Nat) (h : d < 10) :
    (Nat.digitChar d).isDigit = true ∧ (Nat.digitChar d).toNat - 48 = d := by
  interval_cases d <;> exact ⟨rfl, rfl⟩

theorem toDigitsCore_append (fuel : Nat) : ∀ (n : Nat) (acc : List Char),
    Nat.toDigitsCore 10 fuel n acc = Nat.toDigitsCore 10 fuel n [] ++ acc := by
  induction fuel with
  | zero => intro n acc; rfl
  | succ fuel ih =>
    intro n acc
    simp only [Nat.toDigitsCore]
    by_cases h : n / 10 = 0
    · simp [h]
    · simp only [h, if_false]
      rw [ih (n / 10) (Nat.digitChar (n % 10) :: acc), ih (n / 10) [Nat.digitChar (n % 10)]]
      simp

theorem toDigitsCore_spec (fuel : Nat) : ∀ n : Nat, n < fuel →
    Nat.toDigitsCore 10 fuel n [] ≠ [] ∧
    (∀ c ∈ Nat.toDigitsCore 10 fuel n [], c.isDigit = true) ∧
    (Nat.toDigitsCore 10 fuel n []).foldl (fun v c => v * 10 + (c.toNat - 48)) 0 = n := by
  induction fuel with
  | zero => intro n h; omega
  | succ fuel ih =>
    intro n hn
    obtain ⟨d1, d2⟩ := digitChar_isDigit (n % 10) (Nat.mod_lt _ (by decide))
    simp only [Nat.toDigitsCore]
    by_cases h : n / 10 = 0
    · simp only [h, if_true]
      refine ⟨by simp, ?_, ?_⟩
      · intro c hc
        simp only [List.mem_singleton] at hc
        rw [hc]; exact d1
      · simp only [List.foldl_cons, List.foldl_nil, d2]
        omega
    · simp only [h, if_false]
      rw [toDigitsCore_append]
      obtain ⟨i1, i2, i3⟩ := ih (n / 10) (by omega)
      refine ⟨by simp, ?_, ?_⟩
      · intro c hc
        rcases List.mem_append.mp hc with hc | hc
        · exact i2 c hc
        · simp only [List.mem_singleton] at hc
          rw [hc]; exact d1
      · rw [List.foldl_append, i3]
        simp only [List.foldl_cons, List.foldl_nil, d2]
        omega

/-- `parseInt` reads the decimal digits of a natural number back to that number. -/
theorem parseInt_toString_nat (n : Nat) : parseInt (toString n) = some (n : Int) := by
  obtain ⟨h1, h2, h3⟩ := toDigitsCore_spec (n + 1) n (Nat.lt_succ_self n)
  have hs : toString n = String.mk (Nat.toDigitsCore 10 (n + 1) n []) := rfl
  rw [hs, parseInt_digits _ h1 h2, h3]

theorem parseInt_toString_int (q : Int) (hq : 0 ≤ q) : parseInt (toString q) = some q := by
  obtain ⟨n, rfl⟩ := Int.eq_ofNat_of_zero_le hq
  exact parseInt_toString_nat n

/-! ### Quantity edits -/

theorem trimChars_eq_nil (cs : List Char) (h : trimChars cs = []) :
    cs.dropWhile isJsSpace = [] := by
  unfold trimChars at h
  have h1 : (cs.dropWhile isJsSpace).reverse.dropWhile isJsSpace = [] := by
    simpa using h
  cases hx : cs.dropWhile isJsSpace with
  | nil => rfl
  | cons c t =>
    exfalso
    have hall := List.dropWhile_eq_nil_iff.mp h1
    have hc : isJsSpace c = true := hall c (by rw [hx]; simp)
    have hne : cs.dropWhile isJsSpace ≠ [] := by rw [hx]; simp
    have hhead := List.head_dropWhile_not isJsSpace cs hne
    simp only [hx, List.head_cons] at hhead
    rw [hc] at hhead
    cases hhead

/-- A blank string does not parse: `parseInt` gives `NaN`. -/
theorem parseInt_blank (s : String) (h : jsTrim s = "") : parseInt s = none := by
  have h1 : trimChars s.data = [] := by
    have := congrArg String.data h
    simpa [jsTrim] using this
  have h2 := trimChars_eq_nil s.data h1
  unfold parseInt
  simp [h2, readDigits]

theorem showNotification_frame (p : SalePage) (message kind : String) :
    (showNotification p message kind).requests = p.requests ∧
    (showNotification p message kind).rows = p.rows ∧
    (showNotification p message kind).subtotalValue = p.subtotalValue ∧
    (showNotification p message kind).totalValue = p.totalValue ∧
    (showNotification p message kind).emptyCartRow = p.emptyCartRow ∧
    (showNotification p message kind).completeSaleBtnDisabled = p.completeSaleBtnDisabled ∧
    (showNotification p message kind).isHeld = p.isHeld :=
  ⟨rfl, rfl, rfl, rfl, rfl, rfl, rfl⟩

theorem updateQuantity_blank (p : SalePage) (i : Nat) (row : CartRow)
    (hrow : p.rows[i]? = some row) (hb : jsTrim row.qtyInput.value = "") :
    updateQuantity p i = { page := p, pending := none } := by
  simp [updateQuantity, hrow, hb]

theorem updateQuantity_held (p : SalePage) (i : Nat) (row : CartRow)
    (hrow : p.rows[i]? = some row) (hb : jsTrim row.qtyInput.value ≠ "")
    (hh : p.isHeld = true) :
    updateQuantity p i =
      { page := showNotification p "Sale is on hold" "error", pending := none } := by
  simp [updateQuantity, hrow, hb, hh]

theorem updateQuantity_reject (p : SalePage) (i : Nat) (row : CartRow)
    (hrow : p.rows[i]? = some row) (hb : jsTrim row.qtyInput.value ≠ "")
    (hh : p.isHeld = false)
    (hbad : parseInt row.qtyInput.value = none ∨
      ∃ n, parseInt row.qtyInput.value = some n ∧ n < 1) :
    updateQuantity p i = { page := rejectQuantity p i row, pending := none } := by
  rcases hbad with h | ⟨n, h, hn⟩
  · simp [updateQuantity, hrow, hb, hh, h]
  · simp [updateQuantity, hrow, hb, hh, h, hn]

theorem updateQuantity_same (p : SalePage) (i : Nat) (row : CartRow) (q : Int)
    (hrow : p.rows[i]? = some row) (hh : p.isHeld = false)
    (hnew : parseInt row.qtyInput.value = some q) (hq : 1 ≤ q)
    (horig : parseInt row.qtyInput.dataOriginalValue = some q) :
    updateQuantity p i = { page := p, pending := none } := by
  have hb : jsTrim row.qtyInput.value ≠ "" := by
    intro hb
    rw [parseInt_blank _ hb] at hnew
    cases hnew
  have hq2 : ¬ q < 1 := by omega
  simp [updateQuantity, hrow, hb, hh, hnew, hq2, horig]

theorem updateQuantity_send (p : SalePage) (i : Nat) (row : CartRow) (q : Int)
    (hrow : p.rows[i]? = some row) (hh : p.isHeld = false)
    (hnew : parseInt row.qtyInput.value = some q) (hq : 1 ≤ q)
    (horig : parseInt row.qtyInput.dataOriginalValue ≠ some q) :
    updateQuantity p i =
      { page :=
          { p with
            requests := p.requests ++
              [{ body := [("csrfmiddlewaretoken", p.csrfToken),
                  ("action", "update_quantity"), ("item_id", row.qtyInput.dataItemId),
                  ("quantity", toString q)] }] }
        pending :=
          some
            { row := i
              newQty := q
              originalValue := parseInt row.qtyInput.dataOriginalValue
              productName := row.qtyInput.dataProductName } } := by
  have hb : jsTrim row.qtyInput.value ≠ "" := by
    intro hb
    rw [parseInt_blank _ hb] at hnew
    cases hnew
  have hq2 : ¬ q < 1 := by omega
  simp [updateQuantity, hrow, hb, hh, hnew, hq2, horig]

/-- C8 as stated fails. An emptied quantity input is not numeric (`parseInt` gives
`NaN`), yet `updateQuantity` leaves it empty instead of putting back the recorded
original `3`; on a held sale the value `0`, which is less than 1, stays as typed; and the
value `1e-3`, a number less than 1 that a number input can hold, is read by `parseInt` as
1, is not reverted and is sent to the server as quantity 1. -/
theorem updateQuantity_not_reverted :
    parseInt "" = none ∧
    ((updateQuantity (soapPage false "") 0).page.rows.map (fun r => r.qtyInput.value) = [""] ∧
      (soapPage false "").rows.map (fun r => r.qtyInput.dataOriginalValue) = ["3"]) ∧
    parseInt "0" = some 0 ∧
    (updateQuantity (soapPage true "0") 0).page.rows.map (fun r => r.qtyInput.value) =
      ["0"] ∧
    parseInt "1e-3" = some 1 ∧
    (updateQuantity (soapPage false "1e-3") 0).page.rows.map (fun r => r.qtyInput.value) =
      ["1e-3"] ∧
    (updateQuantity (soapPage false "1e-3") 0).page.requests =
      [{ body := [("csrfmiddlewaretoken", "token"), ("action", "update_quantity"),
          ("item_id", "42"), ("quantity", "1")] }] := by
  decide

/-- C8, amended: what counts is how `parseInt` reads the value. A quantity edit whose
value `parseInt` reads as `NaN` or as an integer less than 1 never sends a request; when
the sale is not on hold and the value is not blank, the input is set to the recorded
original quantity (`parseInt` of `data-original-value`, which is that attribute itself
when it holds the digits of a number, as all the code writes) and an error naming the
product is shown; when the value is blank or the sale is on hold, the rows stay as they
are. A value that `parseInt` reads as an integer `q` of at least 1 (also a value such as
`1e-3`, read as 1) is never reverted: the rows stay as they are and, when the sale is not
on hold and `q` is not the recorded original, it is sent as quantity `q`. -/
theorem updateQuantity_invalid (p : SalePage) (i : Nat) (row : CartRow)
    (hrow : p.rows[i]? = some row) :
    ((parseInt row.qtyInput.value = none ∨
        ∃ n, parseInt row.qtyInput.value = some n ∧ n < 1) →
      (updateQuantity p i).page.requests = p.requests ∧
      (updateQuantity p i).pending = none ∧
      (p.isHeld = false → jsTrim row.qtyInput.value ≠ "" →
        (updateQuantity p i).page =
          showNotification
            { p with
              rows := p.rows.set i
                { row with
                  qtyInput :=
                    { row.qtyInput with
                      value :=
                        numberInputValue (parseInt row.qtyInput.dataOriginalValue) } } }
            (row.qtyInput.dataProductName ++ ": Quantity must be at least 1") "error" ∧
        ∀ n : Nat, row.qtyInput.dataOriginalValue = toString n →
          (updateQuantity p i).page.rows[i]?.map (fun r => r.qtyInput.value) =
            some row.qtyInput.dataOriginalValue) ∧
      (p.isHeld = true ∨ jsTrim row.qtyInput.value = "" →
        (updateQuantity p i).page.rows = p.rows)) ∧
    (∀ q : Int, parseInt row.qtyInput.value = some q → 1 ≤ q →
      (updateQuantity p i).page.rows = p.rows ∧
      (p.isHeld = true → (updateQuantity p i).page.requests = p.requests) ∧
      (parseInt row.qtyInput.dataOriginalValue = some q →
        (updateQuantity p i).page.requests = p.requests) ∧
      (p.isHeld = false → parseInt row.qtyInput.dataOriginalValue ≠ some q →
        (updateQuantity p i).page.requests = p.requests ++
          [{ body := [("csrfmiddlewaretoken", p.csrfToken), ("action", "update_quantity"),
              ("item_id", row.qtyInput.dataItemId), ("quantity", toString q)] }])) := by
  have hlen : i < p.rows.length := by
    rcases Nat.lt_or_ge i p.rows.length with h | h
    · exact h
    · rw [List.getElem?_eq_none h] at hrow
      cases hrow
  constructor
  · intro hbad
    by_cases hb : jsTrim row.qtyInput.value = ""
    · rw [updateQuantity_blank p i row hrow hb]
      exact ⟨rfl, rfl, fun _ h => absurd hb h, fun _ => rfl⟩
    · by_cases hh : p.isHeld = true
      · rw [updateQuantity_held p i row hrow hb hh]
        refine ⟨rfl, rfl, fun h => ?_, fun _ => rfl⟩
        rw [hh] at h
        cases h
      · have hh2 : p.isHeld = false := by simpa using hh
        rw [updateQuantity_reject p i row hrow hb hh2 hbad]
        refine ⟨rfl, rfl, fun _ _ => ⟨rfl, ?_⟩, ?_⟩
        · intro n hn
          simp only [rejectQuantity, showNotification, hn, parseInt_toString_nat,
            numberInputValue]
          rw [List.getElem?_set_self hlen]
          rfl
        · rintro (h | h)
          · exact absurd h hh
          · exact absurd h hb
  · intro q hnew hq
    have hb : jsTrim row.qtyInput.value ≠ "" := by
      intro hb
      rw [parseInt_blank _ hb] at hnew
      cases hnew
    by_cases hh : p.isHeld = true
    · rw [updateQuantity_held p i row hrow hb hh]
      refine ⟨rfl, fun _ => rfl, fun _ => rfl, fun h => ?_⟩
      rw [hh] at h
      cases h
    · have hh2 : p.isHeld = false := by simpa using hh
      by_cases horig : parseInt row.qtyInput.dataOriginalValue = some q
      · rw [updateQuantity_same p i row q hrow hh2 hnew hq horig]
        exact ⟨rfl, fun _ => rfl, fun _ => rfl, fun _ h => absurd horig h⟩
      · rw [updateQuantity_send p i row q hrow hh2 hnew hq horig]
        exact ⟨rfl, fun h => absurd h hh, fun h => absurd h horig, fun _ _ => rfl⟩

/-- C8, amended, at the value `0` typed over the recorded quantity `3` of a sale that is
not on hold: the input shows `3` again and nothing is sent. -/
theorem updateQuantity_invalid_witness :
    (updateQuantity (soapPage false "0") 0).page.requests = [] ∧
    (updateQuantity (soapPage false "0") 0).page.rows.map (fun r => r.qtyInput.value) =
      ["3"] := by
  have h := (updateQuantity_invalid (soapPage false "0") 0 _ rfl).1
    (Or.inr ⟨0, by decide, by decide⟩)
  refine ⟨h.1, ?_⟩
  rw [(h.2.2.1 rfl (by decide)).1]
  decide

/-- C9: when the parsed new quantity equals the recorded original, `updateQuantity` sends
no request and, for a quantity of at least 1, changes nothing in the cart (on a sale that
is not on hold, nothing at all). After a successful update to `q` the recorded original
is `q`, so that handing in the same value again changes nothing and sends no second
request. -/
theorem updateQuantity_idempotent (p : SalePage) (i : Nat) (row : CartRow) (q : Int)
    (hrow : p.rows[i]? = some row) (hnew : parseInt row.qtyInput.value = some q) :
    (parseInt row.qtyInput.dataOriginalValue = some q →
      (updateQuantity p i).page.requests = p.requests ∧
      (updateQuantity p i).pending = none ∧
      (1 ≤ q →
        (updateQuantity p i).page.rows = p.rows ∧
        (updateQuantity p i).page.subtotalValue = p.subtotalValue ∧
        (updateQuantity p i).page.totalValue = p.totalValue ∧
        (updateQuantity p i).page.completeSaleBtnDisabled = p.completeSaleBtnDisabled ∧
        (p.isHeld = false → (updateQuantity p i).page = p))) ∧
    (p.isHeld = false → 1 ≤ q → parseInt row.qtyInput.dataOriginalValue ≠ some q →
      ∃ c : PendingUpdate,
        (updateQuantity p i).pending = some c ∧ c.newQty = q ∧
        (updateQuantity p i).page.requests = p.requests ++
          [{ body := [("csrfmiddlewaretoken", p.csrfToken), ("action", "update_quantity"),
              ("item_id", row.qtyInput.dataItemId), ("quantity", toString q)] }] ∧
        ∀ itemTotal subtotal total : JsNum,
          ((updateQuantityDone (updateQuantity p i).page c
              (.success itemTotal subtotal total)).rows[i]?.map
            (fun r => (r.qtyInput.value, r.qtyInput.dataOriginalValue)) =
              some (row.qtyInput.value, toString q)) ∧
          updateQuantity
              (updateQuantityDone (updateQuantity p i).page c
                (.success itemTotal subtotal total)) i =
            { page := updateQuantityDone (updateQuantity p i).page c
                (.success itemTotal subtotal total)
              pending := none }) := by
  have hlen : i < p.rows.length := by
    rcases Nat.lt_or_ge i p.rows.length with h | h
    · exact h
    · rw [List.getElem?_eq_none h] at hrow
      cases hrow
  have hb : jsTrim row.qtyInput.value ≠ "" := by
    intro hb
    rw [parseInt_blank _ hb] at hnew
    cases hnew
  constructor
  · intro horig
    by_cases hh : p.isHeld = true
    · rw [updateQuantity_held p i row hrow hb hh]
      refine ⟨rfl, rfl, fun _ => ⟨rfl, rfl, rfl, rfl, fun h => ?_⟩⟩
      rw [hh] at h
      cases h
    · have hh2 : p.isHeld = false := by simpa using hh
      by_cases hq : 1 ≤ q
      · rw [updateQuantity_same p i row q hrow hh2 hnew hq horig]
        exact ⟨rfl, rfl, fun _ => ⟨rfl, rfl, rfl, rfl, fun _ => rfl⟩⟩
      · rw [updateQuantity_reject p i row hrow hb hh2 (Or.inr ⟨q, hnew, by omega⟩)]
        exact ⟨rfl, rfl, fun h => absurd h hq⟩
  · intro hh hq horig
    rw [updateQuantity_send p i row q hrow hh hnew hq horig]
    refine ⟨_, rfl, rfl, rfl, ?_⟩
    intro itemTotal subtotal total
    have hrow2 :
        ({ p with
            requests := p.requests ++
              [{ body := [("csrfmiddlewaretoken", p.csrfToken),
                  ("action", "update_quantity"), ("item_id", row.qtyInput.dataItemId),
                  ("quantity", toString q)] }] } : SalePage).rows[i]? = some row := hrow
    simp only [updateQuantityDone, hrow2]
    constructor
    · simp only [List.getElem?_set_self hlen, Option.map_some']
    · refine updateQuantity_same _ i
        { row with
          lineTotalCell := toFixed2 itemTotal
          qtyInput := { row.qtyInput with dataOriginalValue := toString q } }
        q ?_ hh hnew hq ?_
      · simp only [List.getElem?_set_self hlen]
      · exact parseInt_toString_int q (by omega)

/-- C9 on the cart of the example: the recorded quantity is 3; typing `3` sends nothing
and leaves the page as it is. -/
theorem updateQuantity_idempotent_witness :
    (updateQuantity (soapPage false "3") 0).page = soapPage false "3" ∧
    (updateQuantity (soapPage false "3") 0).pending = none :=
  have h := (updateQuantity_idempotent (soapPage false "3") 0 _ 3 rfl (by decide)).1
    (by decide)
  ⟨h.2.2 (by decide) |>.2.2.2.2 rfl, h.2.1⟩

/-! ### The hold guard -/

/-- C10 as stated fails: on a held sale, `removeItem` whose confirmation dialog is
declined, and `updateQuantity` on a blank quantity input, return before the hold check
and show no notification. -/
theorem hold_guard_silent :
    (soapPage true "").isHeld = true ∧
    (removeItem (soapPage true "") "42" false).notifications = [] ∧
    (updateQuantity (soapPage true "") 0).page.notifications = [] := by
  decide

/-- C10, amended: while `isHeld` is true, `scanBarcode`, `updateQuantity` and `removeItem`
send no request and leave the cart rows and the totals unchanged. `scanBarcode` always
shows `Sale is on hold`; `updateQuantity` shows it unless the input is blank, and
`removeItem` shows it when the confirmation dialog is accepted; otherwise these two
show nothing. -/
theorem hold_guard (p : SalePage) (hheld : p.isHeld = true) :
    (∀ barcode : String,
      (scanBarcode p barcode).requests = p.requests ∧
      (scanBarcode p barcode).rows = p.rows ∧
      (scanBarcode p barcode).subtotalValue = p.subtotalValue ∧
      (scanBarcode p barcode).totalValue = p.totalValue ∧
      (scanBarcode p barcode).notifications =
        p.notifications ++ [{ message := "Sale is on hold", kind := "error" }]) ∧
    (∀ (i : Nat) (row : CartRow), p.rows[i]? = some row →
      (updateQuantity p i).pending = none ∧
      (updateQuantity p i).page.requests = p.requests ∧
      (updateQuantity p i).page.rows = p.rows ∧
      (updateQuantity p i).page.subtotalValue = p.subtotalValue ∧
      (updateQuantity p i).page.totalValue = p.totalValue ∧
      (updateQuantity p i).page.notifications =
        if jsTrim row.qtyInput.value = "" then p.notifications
        else p.notifications ++ [{ message := "Sale is on hold", kind := "error" }]) ∧
    (∀ (itemId : String) (confirmed : Bool),
      (removeItem p itemId confirmed).requests = p.requests ∧
      (removeItem p itemId confirmed).rows = p.rows ∧
      (removeItem p itemId confirmed).subtotalValue = p.subtotalValue ∧
      (removeItem p itemId confirmed).totalValue = p.totalValue ∧
      (removeItem p itemId confirmed).notifications =
        if confirmed = true then
          p.notifications ++ [{ message := "Sale is on hold", kind := "error" }]
        else p.notifications) := by
  refine ⟨?_, ?_, ?_⟩
  · intro barcode
    have h : scanBarcode p barcode = showNotification p "Sale is on hold" "error" := by
      simp [scanBarcode, hheld]
    rw [h]
    exact ⟨rfl, rfl, rfl, rfl, rfl⟩
  · intro i row hrow
    by_cases hb : jsTrim row.qtyInput.value = ""
    · rw [updateQuantity_blank p i row hrow hb, if_pos hb]
      exact ⟨rfl, rfl, rfl, rfl, rfl, rfl⟩
    · rw [updateQuantity_held p i row hrow hb hheld, if_neg hb]
      exact ⟨rfl, rfl, rfl, rfl, rfl, rfl⟩
  · intro itemId confirmed
    cases confirmed with
    | false =>
      have h : removeItem p itemId false = p := by simp [removeItem]
      rw [h]
      exact ⟨rfl, rfl, rfl, rfl, by simp⟩
    | true =>
      have h : removeItem p itemId true = showNotification p "Sale is on hold" "error" := by
        simp [removeItem, hheld]
      rw [h]
      exact ⟨rfl, rfl, rfl, rfl, by simp [showNotification]⟩

/-- C10, amended, on the held cart of the example: a scan sends nothing and shows the
notification. -/
theorem hold_guard_witness :
    (scanBarcode (soapPage true "3") "123456789012").requests = [] ∧
    (scanBarcode (soapPage true "3") "123456789012").notifications =
      [{ message := "Sale is on hold", kind := "error" }] :=
  have h := (hold_guard (soapPage true "3") rfl).1 "123456789012"
  ⟨h.1, h.2.2.2.2⟩

/-! ### The cart table -/

theorem syncExisting_none (d : ScanData) (rows : List CartRow) :
    syncExisting d rows = none ↔ ∀ r ∈ rows, r.dataProductId ≠ d.productId := by
  induction rows with
  | nil => simp [syncExisting]
  | cons r rs ih =>
    by_cases h : r.dataProductId = d.productId
    · simp [syncExisting, h]
    · simp [syncExisting, h, ih]

/-- When a row with the product id exists, `syncExisting` rewrites the first such row in
place. -/
theorem syncExisting_some (d : ScanData) (rows : List CartRow)
    (h : ∃ r ∈ rows, r.dataProductId = d.productId) :
    ∃ pre r post, rows = pre ++ r :: post ∧
      (∀ x ∈ pre, x.dataProductId ≠ d.productId) ∧ r.dataProductId = d.productId ∧
      syncExisting d rows = some (pre ++ syncRow d r :: post) := by
  induction rows with
  | nil =>
    obtain ⟨r, hr, _⟩ := h
    cases hr
  | cons r rs ih =>
    by_cases hr : r.dataProductId = d.productId
    · exact ⟨[], r, rs, rfl, by simp, hr, by simp [syncExisting, hr]⟩
    · have h2 : ∃ x ∈ rs, x.dataProductId = d.productId := by
        obtain ⟨x, hx, hxid⟩ := h
        rcases List.mem_cons.mp hx with rfl | hx
        · exact absurd hxid hr
        · exact ⟨x, hx, hxid⟩
      obtain ⟨pre, r0, post, e, hpre, hr0, hs⟩ := ih h2
      refine ⟨r :: pre, r0, post, by rw [e]; rfl, ?_, hr0, ?_⟩
      · intro x hx
        rcases List.mem_cons.mp hx with rfl | hx
        · exact hr
        · exact hpre x hx
      · simp [syncExisting, hr, hs]

theorem syncRow_productId (d : ScanData) (r : CartRow) :
    (syncRow d r).dataProductId = r.dataProductId := rfl

theorem updateCartUI_rows_present (p : SalePage) (d : ScanData)
    (h : ∃ r ∈ p.rows, r.dataProductId = d.productId) :
    ∃ pre r post, p.rows = pre ++ r :: post ∧
      (∀ x ∈ pre, x.dataProductId ≠ d.productId) ∧ r.dataProductId = d.productId ∧
      (updateCartUI p d).rows = pre ++ syncRow d r :: post := by
  obtain ⟨pre, r, post, e, hpre, hr, hs⟩ := syncExisting_some d p.rows h
  exact ⟨pre, r, post, e, hpre, hr, by simp [updateCartUI, hs]⟩

theorem updateCartUI_rows_absent (p : SalePage) (d : ScanData)
    (h : ∀ r ∈ p.rows, r.dataProductId ≠ d.productId) :
    (updateCartUI p d).rows = p.rows ++ [newRow d] := by
  simp [updateCartUI, (syncExisting_none d p.rows).mpr h]

/-- C11: `updateCartUI` keeps the cart table at one row per product id at most. For a
reply whose product id has a row, the number of rows and their order stay, one row has
that product id, and it shows the quantity of the reply; for a product id without a row,
exactly one row is appended behind the rows there are, which stay as they were. -/
theorem updateCartUI_one_row_per_product (p : SalePage) (d : ScanData)
    (hnodup : (p.rows.map (fun r => r.dataProductId)).Nodup) :
    ((updateCartUI p d).rows.map (fun r => r.dataProductId)).Nodup ∧
    ((∃ r ∈ p.rows, r.dataProductId = d.productId) →
      (updateCartUI p d).rows.length = p.rows.length ∧
      (updateCartUI p d).rows.map (fun r => r.dataProductId) =
        p.rows.map (fun r => r.dataProductId) ∧
      ((updateCartUI p d).rows.map (fun r => r.dataProductId)).count d.productId = 1 ∧
      ∀ r ∈ (updateCartUI p d).rows, r.dataProductId = d.productId →
        r.qtyInput.value = d.quantityText) ∧
    ((∀ r ∈ p.rows, r.dataProductId ≠ d.productId) →
      (updateCartUI p d).rows = p.rows ++ [newRow d] ∧
      (newRow d).dataProductId = d.productId ∧
      (newRow d).qtyInput.value = d.quantityText) := by
  have hpresent : (∃ r ∈ p.rows, r.dataProductId = d.productId) →
      (updateCartUI p d).rows.map (fun r => r.dataProductId) =
        p.rows.map (fun r => r.dataProductId) := by
    intro h
    obtain ⟨pre, r, post, e, _, _, hs⟩ := updateCartUI_rows_present p d h
    rw [hs, e]
    simp [syncRow_productId]
  refine ⟨?_, ?_, ?_⟩
  · by_cases h : ∃ r ∈ p.rows, r.dataProductId = d.productId
    · rw [hpresent h]; exact hnodup
    · have h2 : ∀ r ∈ p.rows, r.dataProductId ≠ d.productId := by
        intro r hr hid
        exact h ⟨r, hr, hid⟩
      rw [updateCartUI_rows_absent p d h2, List.map_append]
      apply List.Nodup.append hnodup (by simp)
      intro x hx1 hx2
      simp only [List.map_cons, List.map_nil, List.mem_singleton] at hx2
      obtain ⟨r, hr, hrx⟩ := List.mem_map.mp hx1
      exact h2 r hr (by rw [hrx, hx2]; rfl)
  · intro h
    have hmap := hpresent h
    obtain ⟨pre, r, post, e, hpre, hr, hs⟩ := updateCartUI_rows_present p d h
    have hmem : d.productId ∈ p.rows.map (fun r => r.dataProductId) := by
      obtain ⟨x, hx, hxid⟩ := h
      exact List.mem_map.mpr ⟨x, hx, hxid⟩
    refine ⟨?_, hmap, ?_, ?_⟩
    · have := congrArg List.length hmap
      simpa using this
    · rw [hmap]
      exact List.count_eq_one_of_mem hnodup hmem
    · intro x hx hxid
      rw [hs] at hx
      rw [e, List.map_append, List.map_cons] at hnodup
      rcases List.mem_append.mp hx with hx | hx
      · exact absurd hxid (hpre x hx)
      · rcases List.mem_cons.mp hx with rfl | hx
        · rfl
        · exfalso
          have hnd := (List.nodup_append.mp hnodup).2.1
          have hnot := (List.nodup_cons.mp hnd).1
          apply hnot
          exact List.mem_map.mpr ⟨x, hx, by rw [hxid, hr]⟩
  · intro h
    exact ⟨updateCartUI_rows_absent p d h, rfl, rfl⟩

/-- C11 on the cart of the example: a second scan of product 7, now with quantity 4,
keeps the single row and shows 4. -/
theorem updateCartUI_one_row_per_product_witness :
    (updateCartUI (soapPage false "3") { soapScan with quantityText := "4" }).rows.map
        (fun r => (r.dataProductId, r.qtyInput.value)) = [("7", "4")] := by
  have h := (updateCartUI_one_row_per_product (soapPage false "3")
    { soapScan with quantityText := "4" } (by decide)).2.1 ⟨_, List.mem_singleton.mpr rfl, rfl⟩
  have hlen := h.1
  have hval := h.2.2.2
  have hids := h.2.1
  match hrows : (updateCartUI (soapPage false "3") { soapScan with quantityText := "4" }).rows,
    hlen, hval, hids with
  | [r], _, hval, hids =>
    have h1 : r.dataProductId = "7" := by simpa [soapPage] using hids
    have h2 := hval r (List.mem_singleton.mpr rfl) h1
    simp [h1, h2]

theorem updateCartUI_rows_ne_nil (p : SalePage) (d : ScanData) :
    (updateCartUI p d).rows ≠ [] := by
  by_cases h : ∃ r ∈ p.rows, r.dataProductId = d.productId
  · obtain ⟨pre, r, post, _, _, _, hs⟩ := updateCartUI_rows_present p d h
    rw [hs]; simp
  · have h2 : ∀ r ∈ p.rows, r.dataProductId ≠ d.productId := by
      intro r hr hid
      exact h ⟨r, hr, hid⟩
    rw [updateCartUI_rows_absent p d h2]; simp

theorem cartInvariant_of_eq (p q : SalePage) (h1 : q.rows = p.rows)
    (h2 : q.completeSaleBtnDisabled = p.completeSaleBtnDisabled)
    (h3 : q.emptyCartRow = p.emptyCartRow) (hp : CartInvariant p) : CartInvariant q := by
  unfold CartInvariant at hp ⊢
  rw [h1, h2, h3]
  exact hp

theorem removeRow_length (itemId : String) (rows : List CartRow) :
    (removeRow itemId rows).length ≤ rows.length := by
  induction rows with
  | nil => simp [removeRow]
  | cons r rs ih =>
    by_cases h : r.dataItemId = itemId
    · simp [removeRow, h]
    · simp [removeRow, h]; exact ih

theorem removeItemDone_success_fields (p : SalePage) (itemId : String)
    (subtotal total : JsNum) :
    (removeItemDone p itemId (.success subtotal total)).rows = removeRow itemId p.rows ∧
    (removeItemDone p itemId (.success subtotal total)).subtotalValue = toFixed2 subtotal ∧
    (removeItemDone p itemId (.success subtotal total)).totalValue = toFixed2 total ∧
    (removeRow itemId p.rows = [] ∧ p.emptyCartRow = false →
      (removeItemDone p itemId (.success subtotal total)).emptyCartRow = true ∧
      (removeItemDone p itemId (.success subtotal total)).completeSaleBtnDisabled = true) ∧
    (¬ (removeRow itemId p.rows = [] ∧ p.emptyCartRow = false) →
      (removeItemDone p itemId (.success subtotal total)).emptyCartRow = p.emptyCartRow ∧
      (removeItemDone p itemId (.success subtotal total)).completeSaleBtnDisabled =
        p.completeSaleBtnDisabled) := by
  by_cases h : removeRow itemId p.rows = [] ∧ p.emptyCartRow = false
  · have e : removeItemDone p itemId (.success subtotal total) =
        { p with
          rows := removeRow itemId p.rows
          subtotalValue := toFixed2 subtotal
          totalValue := toFixed2 total
          emptyCartRow := true
          completeSaleBtnDisabled := true } := by
      simp only [removeItemDone]
      rw [if_pos h]
    rw [e]
    exact ⟨rfl, rfl, rfl, fun _ => ⟨rfl, rfl⟩, fun hn => absurd h hn⟩
  · have e : removeItemDone p itemId (.success subtotal total) =
        { p with
          rows := removeRow itemId p.rows
          subtotalValue := toFixed2 subtotal
          totalValue := toFixed2 total } := by
      simp only [removeItemDone]
      rw [if_neg h]
    rw [e]
    exact ⟨rfl, rfl, rfl, fun hp => absurd hp h, fun _ => ⟨rfl, rfl⟩⟩

/-- C12: the completion button is enabled exactly when the cart has a line (and the
placeholder row is shown only in an empty table), and every cart operation keeps it so.
A successful `removeItem` that leaves no row leaves the placeholder row shown and the
button disabled; one that leaves a row leaves the button enabled; `updateCartUI` removes
the placeholder and leaves the button enabled, whatever the reply. -/
theorem cartInvariant_preserved (p : SalePage) (hinv : CartInvariant p) :
    (∀ d : ScanData,
      CartInvariant (updateCartUI p d) ∧ (updateCartUI p d).emptyCartRow = false ∧
      (updateCartUI p d).completeSaleBtnDisabled = false ∧ (updateCartUI p d).rows ≠ []) ∧
    (∀ (itemId : String) (subtotal total : JsNum),
      CartInvariant (removeItemDone p itemId (.success subtotal total)) ∧
      ((removeItemDone p itemId (.success subtotal total)).rows = [] →
        (removeItemDone p itemId (.success subtotal total)).emptyCartRow = true ∧
        (removeItemDone p itemId (.success subtotal total)).completeSaleBtnDisabled = true) ∧
      ((removeItemDone p itemId (.success subtotal total)).rows ≠ [] →
        (removeItemDone p itemId (.success subtotal total)).emptyCartRow = false ∧
        (removeItemDone p itemId (.success subtotal total)).completeSaleBtnDisabled = false)) ∧
    (∀ (itemId : String) (error : Option String),
      CartInvariant (removeItemDone p itemId (.failure error)) ∧
      CartInvariant (removeItemDone p itemId .rejected)) ∧
    (∀ (itemId : String) (confirmed : Bool), CartInvariant (removeItem p itemId confirmed)) ∧
    (∀ (barcode : String) (error : Option String),
      CartInvariant (scanBarcode p barcode) ∧
      CartInvariant (scanBarcodeDone p (.failure error)) ∧
      CartInvariant (scanBarcodeDone p .rejected)) ∧
    (∀ i : Nat, CartInvariant (updateQuantity p i).page) ∧
    (∀ (c : PendingUpdate) (reply : UpdateQuantityReply),
      CartInvariant (updateQuantityDone p c reply)) := by
  have hsame : ∀ (msg kind : String), CartInvariant (showNotification p msg kind) :=
    fun msg kind => cartInvariant_of_eq p _ rfl rfl rfl hinv
  have hset : ∀ (q : SalePage) (i : Nat) (r : CartRow), q.rows = p.rows.set i r →
      q.completeSaleBtnDisabled = p.completeSaleBtnDisabled →
      q.emptyCartRow = p.emptyCartRow → CartInvariant q := by
    intro q i r h1 h2 h3
    unfold CartInvariant at hinv ⊢
    rw [h1, h2, h3]
    have hnil : p.rows.set i r = [] ↔ p.rows = [] := by
      constructor
      · intro h
        have := congrArg List.length h
        simpa using this
      · intro h; rw [h]; rfl
    rw [hnil]
    exact hinv
  refine ⟨?_, ?_, ?_, ?_, ?_, ?_, ?_⟩
  · intro d
    have hne := updateCartUI_rows_ne_nil p d
    refine ⟨?_, rfl, rfl, hne⟩
    unfold CartInvariant
    constructor
    · constructor
      · intro h; cases h
      · intro h; exact absurd h hne
    · intro h; cases h
  · intro itemId subtotal total
    obtain ⟨hrows, -, -, hpos, hneg⟩ := removeItemDone_success_fields p itemId subtotal total
    obtain ⟨hbtn, hempty⟩ := hinv
    unfold CartInvariant
    rw [hrows]
    by_cases h : removeRow itemId p.rows = [] ∧ p.emptyCartRow = false
    · obtain ⟨he, hb⟩ := hpos h
      rw [he, hb]
      exact ⟨⟨⟨fun _ => h.1, fun _ => rfl⟩, fun _ => h.1⟩, fun _ => ⟨rfl, rfl⟩,
        fun hne => absurd h.1 hne⟩
    · obtain ⟨he, hb⟩ := hneg h
      rw [he, hb]
      by_cases h1 : removeRow itemId p.rows = []
      · have he1 : p.emptyCartRow = true := by
          cases he1 : p.emptyCartRow with
          | true => rfl
          | false => exact absurd ⟨h1, he1⟩ h
        have hp : p.rows = [] := hempty he1
        have hb1 : p.completeSaleBtnDisabled = true := hbtn.mpr hp
        rw [he1, hb1]
        exact ⟨⟨⟨fun _ => h1, fun _ => rfl⟩, fun _ => h1⟩, fun _ => ⟨rfl, rfl⟩,
          fun hne => absurd h1 hne⟩
      · have hp : p.rows ≠ [] := by
          intro hp
          rw [hp] at h1
          exact h1 rfl
        have hb1 : p.completeSaleBtnDisabled = false := by
          cases hb1 : p.completeSaleBtnDisabled with
          | false => rfl
          | true => exact absurd (hbtn.mp hb1) hp
        have he1 : p.emptyCartRow = false := by
          cases he1 : p.emptyCartRow with
          | false => rfl
          | true => exact absurd (hempty he1) hp
        rw [he1, hb1]
        exact ⟨⟨⟨fun h0 => Bool.noConfusion h0, fun h0 => absurd h0 h1⟩,
          fun h0 => Bool.noConfusion h0⟩, fun h0 => absurd h0 h1, fun _ => ⟨rfl, rfl⟩⟩
  · intro itemId error
    exact ⟨hsame _ _, hsame _ _⟩
  · intro itemId confirmed
    unfold removeItem
    by_cases hc : confirmed = false
    · simp only [hc, if_true]; exact hinv
    · by_cases hh : p.isHeld = true
      · simp only [hc, hh, if_true, if_false]; exact hsame _ _
      · simp only [hc, hh, if_false]
        exact cartInvariant_of_eq p _ rfl rfl rfl hinv
  · intro barcode error
    refine ⟨?_, hsame _ _, hsame _ _⟩
    unfold scanBarcode
    by_cases hh : p.isHeld = true
    · simp only [hh, if_true]; exact hsame _ _
    · simp only [hh, if_false]
      exact cartInvariant_of_eq p _ rfl rfl rfl hinv
  · intro i
    unfold updateQuantity
    cases hrow : p.rows[i]? with
    | none => exact hinv
    | some row =>
      simp only []
      by_cases hb : jsTrim row.qtyInput.value = ""
      · simp only [hb, if_true]; exact hinv
      · by_cases hh : p.isHeld = true
        · simp only [hb, hh, if_true, if_false]; exact hsame _ _
        · simp only [hb, hh, if_false]
          cases hq : parseInt row.qtyInput.value with
          | none => exact hset _ i _ rfl rfl rfl
          | some q =>
            simp only []
            by_cases h1 : q < 1
            · simp only [h1, if_true]; exact hset _ i _ rfl rfl rfl
            · by_cases h2 : parseInt row.qtyInput.dataOriginalValue = some q
              · simp only [h1, h2, if_true, if_false]; exact hinv
              · simp only [h1, h2, if_false]
                exact cartInvariant_of_eq p _ rfl rfl rfl hinv
  · intro c reply
    cases reply with
    | success itemTotal subtotal total =>
      unfold updateQuantityDone
      cases hrow : p.rows[c.row]? with
      | none => exact cartInvariant_of_eq p _ (by simp [hrow]) rfl rfl hinv
      | some row =>
        refine hset _ c.row
          { row with
            lineTotalCell := toFixed2 itemTotal
            qtyInput := { row.qtyInput with dataOriginalValue := toString c.newQty } }
          ?_ rfl rfl
        simp [hrow]
    | failure error =>
      unfold updateQuantityDone restoreQuantity
      cases hrow : p.rows[c.row]? with
      | none => exact hsame _ _
      | some row => exact hset _ c.row _ rfl rfl rfl
    | rejected =>
      unfold updateQuantityDone restoreQuantity
      cases hrow : p.rows[c.row]? with
      | none => exact hsame _ _
      | some row => exact hset _ c.row _ rfl rfl rfl

/-- C12 on the cart of the example: removing its only line shows the placeholder row and
disables the button; scanning on the empty page enables it. -/
theorem cartInvariant_preserved_witness :
    ((removeItemDone (soapPage false "3") "42" (.success (.fin 0) (.fin 0))).rows = [] ∧
      (removeItemDone (soapPage false "3") "42" (.success (.fin 0) (.fin 0))).emptyCartRow
        = true ∧
      (removeItemDone (soapPage false "3") "42"
        (.success (.fin 0) (.fin 0))).completeSaleBtnDisabled = true) ∧
    (updateCartUI emptyCartPage soapScan).completeSaleBtnDisabled = false :=
  have h := (cartInvariant_preserved (soapPage false "3") (by decide)).2.1 "42" (.fin 0) (.fin 0)
  have hrows : (removeItemDone (soapPage false "3") "42" (.success (.fin 0) (.fin 0))).rows
      = [] := (removeItemDone_success_fields _ _ _ _).1
  ⟨⟨hrows, (h.2.1 hrows).1, (h.2.1 hrows).2⟩,
    ((cartInvariant_preserved emptyCartPage (by decide)).1 soapScan).2.2.1⟩

/-- C13: after `updateCartUI`, after a successful `update_quantity` reply and after a
successful `remove_item` reply, the subtotal and the total shown are the `toFixed(2)`
forms of `totals.subtotal` and `totals.total` of the reply, whatever the page showed and
held before. Scanning on the empty page of the example with the `Soap` reply gives one
row, for item 42, and both totals read `50.00`. -/
theorem totals_from_reply (p : SalePage) :
    (∀ d : ScanData,
      (updateCartUI p d).subtotalValue = toFixed2 d.subtotal ∧
      (updateCartUI p d).totalValue = toFixed2 d.total ∧
      (scanBarcodeDone p (.success d)).subtotalValue = toFixed2 d.subtotal ∧
      (scanBarcodeDone p (.success d)).totalValue = toFixed2 d.total) ∧
    (∀ (c : PendingUpdate) (itemTotal subtotal total : JsNum),
      (updateQuantityDone p c (.success itemTotal subtotal total)).subtotalValue =
        toFixed2 subtotal ∧
      (updateQuantityDone p c (.success itemTotal subtotal total)).totalValue =
        toFixed2 total) ∧
    (∀ (itemId : String) (subtotal total : JsNum),
      (removeItemDone p itemId (.success subtotal total)).subtotalValue = toFixed2 subtotal ∧
      (removeItemDone p itemId (.success subtotal total)).totalValue = toFixed2 total) ∧
    (∀ (q : SalePage) (d : ScanData),
      (updateCartUI q d).subtotalValue = (updateCartUI p d).subtotalValue ∧
      (updateCartUI q d).totalValue = (updateCartUI p d).totalValue) ∧
    ((scanBarcodeDone (scanBarcode emptyCartPage "123456789012") (.success soapScan)).rows.map
        (fun r => (r.dataItemId, r.dataProductId, r.itemName, r.qtyInput.value)) =
        [("42", "7", "Soap", "1")] ∧
      (scanBarcodeDone (scanBarcode emptyCartPage "123456789012")
        (.success soapScan)).subtotalValue = "50.00" ∧
      (scanBarcodeDone (scanBarcode emptyCartPage "123456789012")
        (.success soapScan)).totalValue = "50.00") := by
  refine ⟨fun d => ⟨rfl, rfl, rfl, rfl⟩, fun c itemTotal subtotal total => ⟨rfl, rfl⟩, ?_,
    fun q d => ⟨rfl, rfl⟩, ?_⟩
  · intro itemId subtotal total
    obtain ⟨-, h1, h2, -⟩ := removeItemDone_success_fields p itemId subtotal total
    exact ⟨h1, h2⟩
  · decide!

/-- C19 as stated fails: product 7 is scanned again and the reply names it `Soap XL` at
price 60; the row still shows the name `Soap` and the unit price `50.00`. -/
theorem updateCartUI_keeps_name_and_price :
    (soapPage false "3").rows.map (fun r => r.dataProductId) = [soapAgain.productId] ∧
    (updateCartUI (soapPage false "3") soapAgain).rows.map
        (fun r => (r.itemName, r.unitPriceCell)) = [("Soap", "50.00")] ∧
    soapAgain.productName = "Soap XL" ∧ toFixed2 soapAgain.price = "60.00" := by
  decide!

/-- C19, amended: for a reply whose product id has a row, `updateCartUI` inserts no row
and rewrites the first such row in place: the quantity shown and the recorded original
become `product.quantity`, the line total shown becomes `product.total` in `toFixed(2)`
form, and the attributes `data-unit-price` and `data-product-name` of the quantity input
become `product.price` and `product.name`. The name cell, the unit price cell and the
item id of the row stay as they were, and so do all other rows. -/
theorem updateCartUI_existing_row (p : SalePage) (d : ScanData)
    (h : ∃ r ∈ p.rows, r.dataProductId = d.productId) :
    ∃ pre r post, p.rows = pre ++ r :: post ∧
      (∀ x ∈ pre, x.dataProductId ≠ d.productId) ∧ r.dataProductId = d.productId ∧
      (updateCartUI p d).rows =
        pre ++
          { dataProductId := r.dataProductId
            dataItemId := r.dataItemId
            itemName := r.itemName
            qtyInput :=
              { value := d.quantityText
                dataItemId := r.qtyInput.dataItemId
                dataUnitPrice := d.priceText
                dataOriginalValue := d.quantityText
                dataProductName := d.productName }
            unitPriceCell := r.unitPriceCell
            lineTotalCell := toFixed2 d.lineTotal } :: post ∧
      (updateCartUI p d).rows.length = p.rows.length := by
  obtain ⟨pre, r, post, e, hpre, hr, hs⟩ := updateCartUI_rows_present p d h
  refine ⟨pre, r, post, e, hpre, hr, hs, ?_⟩
  rw [hs, e]
  simp

/-- C19, amended, on the example: the second scan of product 7 shows quantity 4 and line
total `240.00` in the one row, under the old name and unit price. -/
theorem updateCartUI_existing_row_witness :
    (updateCartUI (soapPage false "3") soapAgain).rows.map
        (fun r => (r.qtyInput.value, r.lineTotalCell, r.itemName, r.unitPriceCell)) =
      [("4", "240.00", "Soap", "50.00")] := by
  obtain ⟨pre, r, post, e, -, -, hs, -⟩ :=
    updateCartUI_existing_row (soapPage false "3") soapAgain
      ⟨_, List.mem_singleton.mpr rfl, rfl⟩
  cases pre with
  | nil =>
    simp only [soapPage, List.nil_append, List.cons.injEq] at e
    obtain ⟨rfl, rfl⟩ := e
    rw [hs]
    decide!
  | cons x pre =>
    simp [soapPage] at e

/-! ### `validateEmail` -/

namespace Regex

theorem matches_star_cls (p : Char → Bool) (s : List Char) :
    Matches (star (cls p)) s ↔ ∀ c ∈ s, p c = true := by
  constructor
  · intro h
    generalize hr : star (cls p) = r at h
    induction h with
    | eps => cases hr
    | cls q d hd => cases hr
    | seq a1 b1 u v _ _ _ _ => cases hr
    | altL a1 b1 u _ _ => cases hr
    | altR a1 b1 u _ _ => cases hr
    | starNil a1 => intro c hc; cases hc
    | starCons a1 u v hu hv _ ihv =>
      cases hr
      obtain ⟨d, rfl, hd⟩ := (matches_cls_iff p u).mp hu
      intro c hc
      rcases List.mem_append.mp hc with hc | hc
      · rw [List.mem_singleton.mp hc]; exact hd
      · exact ihv rfl c hc
  · intro h
    induction s with
    | nil => exact Matches.starNil _
    | cons c t ih =>
      have h1 : Matches (cls p) [c] := Matches.cls p c (h c (List.mem_cons_self _ _))
      have h2 := ih (fun d hd => h d (List.mem_cons_of_mem _ hd))
      exact Matches.starCons (cls p) [c] t h1 h2

theorem matches_plus_cls (p : Char → Bool) (s : List Char) :
    Matches (plus (cls p)) s ↔ s ≠ [] ∧ ∀ c ∈ s, p c = true := by
  simp only [plus, matches_seq_iff, matches_cls_iff, matches_star_cls]
  constructor
  · rintro ⟨u, v, rfl, ⟨c, rfl, hc⟩, hv⟩
    refine ⟨by simp, ?_⟩
    intro d hd
    rcases List.mem_append.mp hd with hd | hd
    · rw [List.mem_singleton.mp hd]; exact hc
    · exact hv d hd
  · rintro ⟨hne, hall⟩
    cases s with
    | nil => exact absurd rfl hne
    | cons c t =>
      exact ⟨[c], t, rfl, ⟨c, rfl, hall c (List.mem_cons_self _ _)⟩,
        fun d hd => hall d (List.mem_cons_of_mem _ hd)⟩

end Regex

/-- The strings of `emailRegex`: three non-empty runs of `[^\s@]`, with `@` after the
first and `.` after the second. -/
theorem matches_emailRegex (s : List Char) :
    Regex.Matches emailRegex s ↔
      ∃ l x y : List Char, s = l ++ '@' :: (x ++ '.' :: y) ∧
        (l ≠ [] ∧ ∀ c ∈ l, notSpaceAt c = true) ∧
        (x ≠ [] ∧ ∀ c ∈ x, notSpaceAt c = true) ∧
        (y ≠ [] ∧ ∀ c ∈ y, notSpaceAt c = true) := by
  simp only [emailRegex, Regex.matches_seq_iff, Regex.matches_plus_cls, Regex.matches_cls_iff,
    beq_iff_eq]
  constructor
  · rintro ⟨l, r1, rfl, hl, a, r2, rfl, ⟨c1, rfl, rfl⟩, x, r3, rfl, hx, b, y, rfl,
      ⟨c2, rfl, rfl⟩, hy⟩
    exact ⟨l, x, y, by simp, hl, hx, hy⟩
  · rintro ⟨l, x, y, rfl, hl, hx, hy⟩
    exact ⟨l, _, rfl, hl, ['@'], _, rfl, ⟨'@', rfl, rfl⟩, x, _, rfl, hx, ['.'], y, rfl,
      ⟨'.', rfl, rfl⟩, hy⟩

theorem notSpaceAt_iff (c : Char) : notSpaceAt c = true ↔ isJsSpace c = false ∧ c ≠ '@' := by
  simp [notSpaceAt]

theorem takeWhile_dropWhile_at (s : List Char) (h : '@' ∈ s) :
    ∃ d, s.dropWhile (fun c => c != '@') = '@' :: d ∧
      s = s.takeWhile (fun c => c != '@') ++ '@' :: d ∧
      ∀ c ∈ s.takeWhile (fun c => c != '@'), c ≠ '@' := by
  induction s with
  | nil => cases h
  | cons a t ih =>
    by_cases ha : a = '@'
    · subst ha
      exact ⟨t, by simp, by simp, by simp⟩
    · have ht : '@' ∈ t := by
        rcases List.mem_cons.mp h with h | h
        · exact absurd h.symm ha
        · exact h
      obtain ⟨d, h1, h2, h3⟩ := ih ht
      have hb : (a != '@') = true := by simpa using ha
      refine ⟨d, ?_, ?_, ?_⟩
      · rw [List.dropWhile_cons, if_pos hb]; exact h1
      · rw [List.takeWhile_cons, if_pos hb, List.cons_append, ← h2]
      · rw [List.takeWhile_cons, if_pos hb]
        intro c hc
        rcases List.mem_cons.mp hc with rfl | hc
        · exact ha
        · exact h3 c hc

theorem takeWhile_dropWhile_of_prefix (l d : List Char) (hl : ∀ c ∈ l, c ≠ '@') :
    (l ++ '@' :: d).takeWhile (fun c => c != '@') = l ∧
    (l ++ '@' :: d).dropWhile (fun c => c != '@') = '@' :: d := by
  induction l with
  | nil => simp
  | cons a t ih =>
    have ha : (a != '@') = true := by simpa using hl a (List.mem_cons_self _ _)
    obtain ⟨h1, h2⟩ := ih (fun c hc => hl c (List.mem_cons_of_mem _ hc))
    constructor
    · rw [List.cons_append, List.takeWhile_cons, if_pos ha, h1]
    · rw [List.cons_append, List.dropWhile_cons, if_pos ha, h2]

theorem validateEmail_eq_true_iff (e : String) :
    validateEmail e = true ↔
      (∀ c ∈ e.data, isJsSpace c = false) ∧
      e.data.count '@' = 1 ∧
      e.data.takeWhile (fun c => c != '@') ≠ [] ∧
      ∃ i, 0 < i ∧ i + 1 < ((e.data.dropWhile (fun c => c != '@')).drop 1).length ∧
        ((e.data.dropWhile (fun c => c != '@')).drop 1)[i]? = some '.' := by
  unfold validateEmail
  rw [Regex.accepts_iff, matches_emailRegex]
  generalize e.data = s
  have hat : isJsSpace '@' = false := by decide
  have hdot : isJsSpace '.' = false := by decide
  constructor
  · rintro ⟨l, x, y, rfl, ⟨hl0, hl⟩, ⟨hx0, hx⟩, ⟨hy0, hy⟩⟩
    have hl2 : ∀ c ∈ l, c ≠ '@' := fun c hc => ((notSpaceAt_iff c).mp (hl c hc)).2
    obtain ⟨ht, hd⟩ := takeWhile_dropWhile_of_prefix l (x ++ '.' :: y) hl2
    refine ⟨?_, ?_, ?_, ?_⟩
    · intro c hc
      simp only [List.mem_append, List.mem_cons] at hc
      rcases hc with hc | rfl | hc | rfl | hc
      · exact ((notSpaceAt_iff c).mp (hl c hc)).1
      · exact hat
      · exact ((notSpaceAt_iff c).mp (hx c hc)).1
      · exact hdot
      · exact ((notSpaceAt_iff c).mp (hy c hc)).1
    · have c1 : l.count '@' = 0 := List.count_eq_zero.mpr (fun h => hl2 _ h rfl)
      have c2 : x.count '@' = 0 :=
        List.count_eq_zero.mpr (fun h => ((notSpaceAt_iff _).mp (hx _ h)).2 rfl)
      have c3 : y.count '@' = 0 :=
        List.count_eq_zero.mpr (fun h => ((notSpaceAt_iff _).mp (hy _ h)).2 rfl)
      have hne : ('.' : Char) ≠ '@' := by decide
      simp [List.count_append, List.count_cons, c1, c2, c3, hne]
    · rw [ht]; exact hl0
    · rw [hd]
      refine ⟨x.length, List.length_pos.mpr hx0, ?_, ?_⟩
      · have := List.length_pos.mpr hy0
        simp
        omega
      · simp only [List.drop_succ_cons, List.drop_zero]
        rw [List.getElem?_append_right (le_refl _)]
        simp
  · rintro ⟨hsp, hcount, hloc, i, hi0, hi1, hget⟩
    have hmem : '@' ∈ s := by
      apply List.count_pos_iff.mp
      omega
    obtain ⟨d, hd, hs, hl2⟩ := takeWhile_dropWhile_at s hmem
    rw [hd] at hi1 hget
    simp only [List.drop_succ_cons, List.drop_zero] at hi1 hget
    have hdcount : d.count '@' = 0 := by
      have c1 : (s.takeWhile (fun c => c != '@')).count '@' = 0 :=
        List.count_eq_zero.mpr (fun h => hl2 _ h rfl)
      have := hcount
      rw [hs, List.count_append, List.count_cons_self, c1] at this
      omega
    have hdall : ∀ c ∈ d, notSpaceAt c = true := by
      intro c hc
      refine (notSpaceAt_iff c).mpr ⟨hsp c ?_, ?_⟩
      · rw [hs]; simp [hc]
      · intro hce
        rw [hce] at hc
        exact List.count_eq_zero.mp hdcount hc
    have hilt : i < d.length := by omega
    have hdi : d[i] = '.' := by
      have := List.getElem?_eq_getElem hilt
      rw [this] at hget
      exact Option.some.inj hget
    have hsplit : d = d.take i ++ '.' :: d.drop (i + 1) := by
      rw [← hdi]
      exact (List.take_append_drop i d).symm.trans (by rw [List.drop_eq_getElem_cons hilt])
    refine ⟨s.takeWhile (fun c => c != '@'), d.take i, d.drop (i + 1), ?_, ⟨hloc, ?_⟩,
      ⟨?_, ?_⟩, ⟨?_, ?_⟩⟩
    · rw [← hsplit]; exact hs
    · intro c hc
      refine (notSpaceAt_iff c).mpr ⟨hsp c ?_, hl2 c hc⟩
      exact (List.takeWhile_prefix _).subset hc
    · intro h
      have h2 : (d.take i).length = i := by rw [List.length_take]; omega
      rw [h] at h2
      simp at h2
      omega
    · intro c hc
      exact hdall c (List.mem_of_mem_take hc)
    · intro h
      have h2 : (d.drop (i + 1)).length = d.length - (i + 1) := List.length_drop _ _
      rw [h] at h2
      simp at h2
      omega
    · intro c hc
      exact hdall c (List.mem_of_mem_drop hc)

/-- C20: `validateEmail(e)` holds exactly when `e` has no whitespace character, exactly
one `@`, a non-empty part before the `@`, and behind the `@` a part that has a `.` which
is neither its first nor its last character. So `foo`, `a@b`, `a@.c`, `a@b.` and
`a@b@c.d` are rejected and `a@b.c` is accepted. -/
theorem validateEmail_spec (e : String) :
    (validateEmail e = true ↔
      (∀ c ∈ e.data, isJsSpace c = false) ∧
      e.data.count '@' = 1 ∧
      e.data.takeWhile (fun c => c != '@') ≠ [] ∧
      ∃ i, 0 < i ∧ i + 1 < ((e.data.dropWhile (fun c => c != '@')).drop 1).length ∧
        ((e.data.dropWhile (fun c => c != '@')).drop 1)[i]? = some '.') ∧
    validateEmail "foo" = false ∧ validateEmail "a@b.c" = true ∧
    validateEmail "a@b" = false ∧ validateEmail "a@.c" = false ∧
    validateEmail "a@b." = false ∧ validateEmail "a@b@c.d" = false :=
  ⟨validateEmail_eq_true_iff e, by decide, by decide, by decide, by decide, by decide,
    by decide⟩

/-! ### The completion flow -/

/-- The event model of a poll session agrees with `pollOnce`: a run of `poll` and the
handling of its response are `pollStart` followed by `pollResponse`. -/
theorem pollOnce_eq_start_response (c : Checkout) (σ : PollSession) (r : PollResponse) :
    pollOnce σ.transactionReference
        { toPaymentModal := c.payment, attempts := σ.attempts, requests := [],
          pollTimer := σ.pollTimer, completionTimer := σ.completionTimer,
          outcome := σ.outcome } r =
      { toPaymentModal := (pollResponse (pollStart c σ).1 (pollStart c σ).2 r).1.payment
        attempts := (pollResponse (pollStart c σ).1 (pollStart c σ).2 r).2.attempts
        requests := [statusUrl σ.transactionReference]
        pollTimer := (pollResponse (pollStart c σ).1 (pollStart c σ).2 r).2.pollTimer
        completionTimer :=
          (pollResponse (pollStart c σ).1 (pollStart c σ).2 r).2.completionTimer
        outcome := (pollResponse (pollStart c σ).1 (pollStart c σ).2 r).2.outcome } := by
  simp only [pollOnce, pollStart, pollResponse, List.nil_append]
  cases r with
  | parsed status message =>
    simp only [onPollResponse]
    split_ifs <;> rfl
  | error =>
    simp only [onPollResponse]
    split_ifs <;> rfl

theorem closeModal_locked (c : Checkout) (h : c.isModalActive = true) : closeModal c = c := by
  simp [closeModal, h]

theorem closeModal_free (c : Checkout) (h : c.isModalActive = false) :
    closeModal c = { c with completeSaleModalDisplay := "none" } := by
  simp [closeModal, h]

theorem closePrinterModal_locked (c : Checkout) (h : c.isModalActive = true) :
    closePrinterModal c = c := by
  simp [closePrinterModal, h]

theorem submitSaleCompletionPrepare_mpesa (c : Checkout)
    (h : c.paymentMethodHidden = "M-Pesa") :
    submitSaleCompletionPrepare c =
      { closeModal c with
        isModalActive := true
        paymentCheckModalActive := true
        payment :=
          { (closeModal c).payment with
            statusText := "Initiating Payment"
            statusColor := "#f39c12"
            messageText := "Please wait while we process your request..."
            actionsVisible := false } } := by
  have h2 : (closeModal c).paymentMethodHidden = "M-Pesa" := by
    unfold closeModal
    split <;> exact h
  simp only [submitSaleCompletionPrepare, h2, if_true]

theorem submitSaleCompletionPrepare_other (c : Checkout)
    (h : c.paymentMethodHidden ≠ "M-Pesa") :
    submitSaleCompletionPrepare c =
      { closeModal c with
        isModalActive := true
        printerModalActive := true
        printer :=
          { (closeModal c).printer with
            statusText := "Sending print request..."
            statusColor := "#f39c12"
            messageText := "Please wait while we print your receipt" } } := by
  have h2 : ¬ (closeModal c).paymentMethodHidden = "M-Pesa" := by
    unfold closeModal
    split <;> exact h
  simp only [submitSaleCompletionPrepare, h2, if_false]

theorem closeModal_frame (c : Checkout) :
    (closeModal c).isModalActive = c.isModalActive ∧
    (closeModal c).requests = c.requests ∧
    (closeModal c).printerModalActive = c.printerModalActive ∧
    (closeModal c).paymentCheckModalActive = c.paymentCheckModalActive ∧
    (closeModal c).payment = c.payment ∧ (closeModal c).printer = c.printer := by
  unfold closeModal
  split <;> exact ⟨rfl, rfl, rfl, rfl, rfl, rfl⟩

/-- C14 as stated fails. The completion modal can be open while `isModalActive` is set:
`completeSale()` opens it without looking at the lock (first scenario, during the printing
of a cash sale), and `closePaymentModal()` reopens it while the poll session goes on,
whose `SUCCESS` sets the lock again (second scenario). A submit in such a state leaves
the completion modal open, because `closeModal()` returns at once under the lock. -/
theorem submitSaleCompletion_modal_stays_open :
    ((submitSaleCompletion (completeSale (freshCheckout "Cash")) []).isModalActive = true ∧
      (submitSaleCompletion (completeSale (freshCheckout "Cash")) []).completeSaleModalDisplay
        = "none" ∧
      (submitSaleCompletion
        (completeSale (submitSaleCompletion (completeSale (freshCheckout "Cash")) []))
        []).completeSaleModalDisplay = "flex") ∧
    (cancelledThenPaid.ui.isModalActive = true ∧
      cancelledThenPaid.ui.completeSaleModalDisplay = "flex" ∧
      (submitSaleCompletion cancelledThenPaid.ui []).completeSaleModalDisplay = "flex") := by
  decide

theorem submitSaleCompletionPrepare_frame (c : Checkout) :
    (submitSaleCompletionPrepare c).isModalActive = true ∧
    (submitSaleCompletionPrepare c).requests = c.requests ∧
    (submitSaleCompletionPrepare c).completeSaleModalDisplay =
      (closeModal c).completeSaleModalDisplay := by
  obtain ⟨-, f2, -⟩ := closeModal_frame c
  by_cases hm : c.paymentMethodHidden = "M-Pesa"
  · rw [submitSaleCompletionPrepare_mpesa c hm]
    exact ⟨rfl, f2, rfl⟩
  · rw [submitSaleCompletionPrepare_other c hm]
    exact ⟨rfl, f2, rfl⟩

theorem closeModal_display_none (c : Checkout) (hd : c.completeSaleModalDisplay = "none") :
    (closeModal c).completeSaleModalDisplay = "none" := by
  unfold closeModal
  split
  · exact hd
  · rfl

/-- C14, amended: `submitSaleCompletion` sets `isModalActive` and opens the modal of the
payment method (the payment modal in state Initiating for `M-Pesa`, the printing modal
for every other method), and sends the completion request from the state so prepared.
The completion modal is closed when the lock was free at the call; under the lock
`closeModal()` does nothing and the modal keeps its display, closed on a retry. -/
theorem submitSaleCompletion_spec (c : Checkout) (form : List (String × String)) :
    submitSaleCompletion c form =
      { submitSaleCompletionPrepare c with
        requests := c.requests ++ [.completeSale (form ++ [("action", "complete_sale")])] } ∧
    (submitSaleCompletionPrepare c).isModalActive = true ∧
    (submitSaleCompletionPrepare c).requests = c.requests ∧
    (c.isModalActive = false →
      (submitSaleCompletionPrepare c).completeSaleModalDisplay = "none") ∧
    (c.isModalActive = true →
      (submitSaleCompletionPrepare c).completeSaleModalDisplay = c.completeSaleModalDisplay) ∧
    (c.paymentMethodHidden = "M-Pesa" →
      (submitSaleCompletionPrepare c).paymentCheckModalActive = true ∧
      (submitSaleCompletionPrepare c).payment.statusText = "Initiating Payment" ∧
      (submitSaleCompletionPrepare c).payment.actionsVisible = false ∧
      (submitSaleCompletionPrepare c).printerModalActive = c.printerModalActive) ∧
    (c.paymentMethodHidden ≠ "M-Pesa" →
      (submitSaleCompletionPrepare c).printerModalActive = true ∧
      (submitSaleCompletionPrepare c).printer.statusText = "Sending print request..." ∧
      (submitSaleCompletionPrepare c).paymentCheckModalActive = c.paymentCheckModalActive) ∧
    (c.completeSaleModalDisplay = "none" →
      (retryPayment c form).completeSaleModalDisplay = "none" ∧
      (retryPayment c form).isModalActive = true) := by
  obtain ⟨f1, f2, f3, f4, f5, f6⟩ := closeModal_frame c
  have hdisp_free : c.isModalActive = false → (closeModal c).completeSaleModalDisplay = "none" :=
    fun h => by rw [closeModal_free c h]
  have hdisp_lock : c.isModalActive = true →
      (closeModal c).completeSaleModalDisplay = c.completeSaleModalDisplay :=
    fun h => by rw [closeModal_locked c h]
  have hprep := submitSaleCompletionPrepare_frame c
  refine ⟨?_, hprep.1, hprep.2.1, ?_, ?_, ?_, ?_, ?_⟩
  · simp only [submitSaleCompletion, hprep.2.1]
  · intro h; rw [hprep.2.2]; exact hdisp_free h
  · intro h; rw [hprep.2.2]; exact hdisp_lock h
  · intro hm
    rw [submitSaleCompletionPrepare_mpesa c hm]
    exact ⟨rfl, rfl, rfl, f3⟩
  · intro hm
    rw [submitSaleCompletionPrepare_other c hm]
    exact ⟨rfl, rfl, f4⟩
  · intro hd
    obtain ⟨g1, -, g3⟩ := submitSaleCompletionPrepare_frame
      { c with payment := { c.payment with actionsVisible := false, iconAnimation := "" } }
    simp only [retryPayment, submitSaleCompletion]
    exact ⟨by rw [g3]; exact closeModal_display_none _ hd, g1⟩

/-- C15 as stated fails: not every outcome of the completion request of a method other
than `M-Pesa` schedules a redirect. The handler tests `data.success &&
data.payment_initiated` before it looks at the method: an `Airtel` sale answered with
`payment_initiated` gets no redirect timer; the payment modal, which is not shown, is
written, and the status request for `TX1` is sent behind the printing modal. -/
theorem submitSaleCompletionDone_initiated_no_redirect :
    (submitSaleCompletion (completeSale (freshCheckout "Airtel")) []).printerModalActive
      = true ∧
    (submitSaleCompletionDone (submitSaleCompletion (completeSale (freshCheckout "Airtel")) [])
      "Airtel" (.initiated "TX1")).ui.redirectTimers = [] ∧
    (submitSaleCompletionDone (submitSaleCompletion (completeSale (freshCheckout "Airtel")) [])
      "Airtel" (.initiated "TX1")).ui.paymentCheckModalActive = false ∧
    (submitSaleCompletionDone (submitSaleCompletion (completeSale (freshCheckout "Airtel")) [])
      "Airtel" (.initiated "TX1")).ui.requests.getLast? = some (.status (statusUrl "TX1")) ∧
    (submitSaleCompletionDone (submitSaleCompletion (completeSale (freshCheckout "Airtel")) [])
      "Airtel" (.initiated "TX1")).ui.isModalActive = true := by
  decide

/-- C15, amended: a reply with `success` and `payment_initiated` is handled alike for
every method: no redirect is scheduled, the payment modal is written and the first
status request is sent. For a payment method other than `M-Pesa`, each of the other
three ends of the completion request (success, `success: false`, rejection) shows its
text in the printing modal and schedules one redirect timer of 3000 ms, whose callback
clears `isModalActive` and sends the page to `/sales/new/`. For `M-Pesa`, a failed
initiation schedules no redirect and shows `Error` in the payment modal with the actions
visible. -/
theorem submitSaleCompletionDone_redirect (c : Checkout) (paymentMethod : String) :
    (∀ transactionReference : String,
      (submitSaleCompletionDone c paymentMethod (.initiated transactionReference)).ui.redirectTimers
        = c.redirectTimers ∧
      (submitSaleCompletionDone c paymentMethod (.initiated transactionReference)).ui.requests
        = c.requests ++ [.status (statusUrl transactionReference)] ∧
      (submitSaleCompletionDone c paymentMethod
        (.initiated transactionReference)).ui.payment.statusText = "Payment Initiated" ∧
      (submitSaleCompletionDone c paymentMethod (.initiated transactionReference)).ui.printer
        = c.printer ∧
      (submitSaleCompletionDone c paymentMethod (.initiated transactionReference)).session =
        some
          { transactionReference := transactionReference
            attempts := 1
            inFlight := true
            pollTimer := false
            completionTimer := false
            outcome := .awaitingPayment }) ∧
    (paymentMethod ≠ "M-Pesa" →
      (∀ saleNumber : String,
        (submitSaleCompletionDone c paymentMethod (.success saleNumber)).ui.redirectTimers =
          c.redirectTimers ++ [3000] ∧
        (submitSaleCompletionDone c paymentMethod (.success saleNumber)).ui.printer.statusText =
          "Receipt Printed Successfully!" ∧
        (submitSaleCompletionDone c paymentMethod (.success saleNumber)).ui.printer.messageText =
          "Sale " ++ saleNumber ++ " completed successfully") ∧
      (∀ error : Option String,
        (submitSaleCompletionDone c paymentMethod (.failure error)).ui.redirectTimers =
          c.redirectTimers ++ [3000] ∧
        (submitSaleCompletionDone c paymentMethod (.failure error)).ui.printer.statusText =
          "Error" ∧
        (submitSaleCompletionDone c paymentMethod (.failure error)).ui.printer.messageText =
          jsOrElse error "An error occurred while completing the sale") ∧
      ((submitSaleCompletionDone c paymentMethod .rejected).ui.redirectTimers =
          c.redirectTimers ++ [3000] ∧
        (submitSaleCompletionDone c paymentMethod .rejected).ui.printer.statusText = "Error" ∧
        (submitSaleCompletionDone c paymentMethod .rejected).ui.printer.messageText =
          "An error occurred while completing the sale")) ∧
    (paymentMethod = "M-Pesa" →
      (∀ error : Option String,
        (submitSaleCompletionDone c paymentMethod (.failure error)).ui.redirectTimers =
          c.redirectTimers ∧
        (submitSaleCompletionDone c paymentMethod (.failure error)).ui.payment.statusText =
          "Error" ∧
        (submitSaleCompletionDone c paymentMethod (.failure error)).ui.payment.messageText =
          jsOrElse error "An error occurred while initiating payment" ∧
        (submitSaleCompletionDone c paymentMethod (.failure error)).ui.payment.actionsVisible =
          true ∧
        (submitSaleCompletionDone c paymentMethod (.failure error)).session = none) ∧
      ((submitSaleCompletionDone c paymentMethod .rejected).ui.redirectTimers =
          c.redirectTimers ∧
        (submitSaleCompletionDone c paymentMethod .rejected).ui.payment.statusText = "Error" ∧
        (submitSaleCompletionDone c paymentMethod .rejected).ui.payment.actionsVisible = true ∧
        (submitSaleCompletionDone c paymentMethod .rejected).session = none)) ∧
    (∀ (reply : CompletionReply) (delay : Nat) (rest : List Nat),
      (submitSaleCompletionDone c paymentMethod reply).ui.redirectTimers = delay :: rest →
      (redirectTimerFires (submitSaleCompletionDone c paymentMethod reply).ui).isModalActive
        = false ∧
      (redirectTimerFires (submitSaleCompletionDone c paymentMethod reply).ui).navigatedTo
        = some "/sales/new/" ∧
      (redirectTimerFires (submitSaleCompletionDone c paymentMethod reply).ui).redirectTimers
        = rest) := by
  refine ⟨fun transactionReference => ⟨rfl, rfl, rfl, rfl, rfl⟩, ?_, ?_, ?_⟩
  · intro hm
    refine ⟨fun saleNumber => ⟨rfl, rfl, rfl⟩, fun error => ?_, ?_⟩
    · simp only [submitSaleCompletionDone, showCompletionError, hm, if_false]
      exact ⟨trivial, trivial, trivial⟩
    · simp only [submitSaleCompletionDone, showCompletionError, hm, if_false]
      exact ⟨trivial, trivial, trivial⟩
  · intro hm
    refine ⟨fun error => ?_, ?_⟩
    · simp only [submitSaleCompletionDone, showCompletionError, hm, if_true]
      exact ⟨trivial, trivial, trivial, trivial, trivial⟩
    · simp only [submitSaleCompletionDone, showCompletionError, hm, if_true]
      exact ⟨trivial, trivial, trivial, trivial⟩
  · intro reply delay rest h
    simp only [redirectTimerFires, h]
    exact ⟨trivial, trivial, trivial⟩

/-- C16: while `isModalActive` is true, `Escape` (and any other key), a click on any
target, `closeModal()` and `closePrinterModal()` leave the page as it is, so the
completion modal, the printing modal and the PayBill modal keep their visibility. -/
theorem lock_blocks_dismissal (c : Checkout) (h : c.isModalActive = true) :
    keydown c "Escape" = c ∧ (∀ key : String, keydown c key = c) ∧
    (∀ target : ClickTarget, windowClick c target = c) ∧
    closeModal c = c ∧ closePrinterModal c = c ∧
    (∀ target : ClickTarget,
      (windowClick c target).completeSaleModalDisplay = c.completeSaleModalDisplay ∧
      (windowClick c target).printerModalActive = c.printerModalActive ∧
      (windowClick c target).paybillConfirmModalActive = c.paybillConfirmModalActive) := by
  have hk : ∀ key : String, keydown c key = c := by
    intro key
    simp [keydown, h]
  have hw : ∀ target : ClickTarget, windowClick c target = c := by
    intro target
    simp [windowClick, h]
  refine ⟨hk _, hk, hw, closeModal_locked c h, closePrinterModal_locked c h, ?_⟩
  intro target
  rw [hw target]
  exact ⟨rfl, rfl, rfl⟩

/-- C16 during the printing of a cash sale: `Escape` and a click on the backdrop of the
printing modal change nothing. -/
theorem lock_blocks_dismissal_witness :
    keydown (submitSaleCompletion (completeSale (freshCheckout "Cash")) []) "Escape" =
      submitSaleCompletion (completeSale (freshCheckout "Cash")) [] ∧
    windowClick (submitSaleCompletion (completeSale (freshCheckout "Cash")) []) .printerModal =
      submitSaleCompletion (completeSale (freshCheckout "Cash")) [] :=
  have h := lock_blocks_dismissal (submitSaleCompletion (completeSale (freshCheckout "Cash")) [])
    (by decide)
  ⟨h.1, h.2.2.1 .printerModal⟩

/-- C17 as stated fails. In the example run the payment modal is closed while the session
of `TX1` waits for its poll timer. The cancel clears the lock and shows the completion
modal, but the session goes on: the timer fires and a second status request for `TX1`
is sent, its `SUCCESS` rewrites the payment modal, and the 2000 ms timer sets
`isModalActive` again, opens the printing modal and sends the final completion request. -/
theorem closePaymentModal_session_goes_on :
    ((waitingFlow.act closePaymentModal).ui.isModalActive = false ∧
      (waitingFlow.act closePaymentModal).ui.paymentCheckModalActive = false ∧
      (waitingFlow.act closePaymentModal).ui.completeSaleModalDisplay = "flex" ∧
      (waitingFlow.act closePaymentModal).ui.requests =
        [.completeSale [("action", "complete_sale")], .status (statusUrl "TX1")]) ∧
    ((waitingFlow.act closePaymentModal).step .pollTimerFires).ui.requests =
      [.completeSale [("action", "complete_sale")], .status (statusUrl "TX1"),
        .status (statusUrl "TX1")] ∧
    ((waitingFlow.act closePaymentModal).ui.payment.statusText = "Waiting for Payment" ∧
      (((waitingFlow.act closePaymentModal).step .pollTimerFires).step
        (.response (.parsed (some "SUCCESS") none))).ui.payment.statusText =
        "Payment Received!") ∧
    (cancelledThenPaid.ui.isModalActive = true ∧
      cancelledThenPaid.ui.printerModalActive = true ∧
      cancelledThenPaid.ui.requests.getLast? =
        some (.completeSaleAfterPayment
          [("csrfmiddlewaretoken", "token"), ("action", "complete_sale"),
            ("payment_method", "M-PESA"), ("transaction_reference", "TX1")])) := by
  decide

theorem sessionStep_closePaymentModal_isSome (c : Checkout) (σ : PollSession)
    (e : SessionEvent) :
    (sessionStep (closePaymentModal c) σ e).isSome = (sessionStep c σ e).isSome := by
  cases e with
  | pollTimerFires => simp only [sessionStep]; split <;> rfl
  | response r => simp only [sessionStep]; split <;> rfl
  | completionTimerFires => simp only [sessionStep]; split <;> rfl

/-- C17, amended: `closePaymentModal()` clears `isModalActive`, hides the payment modal and
shows the completion modal, and touches nothing else; in particular it does not end the
poll session. Every event of the session that was pending is pending after the cancel: a
poll timer still sends its status request, a response still runs its handler on the
payment modal, and the timer of a `SUCCESS` still sets `isModalActive`, opens the printing
modal and sends the final completion request. Only a session with nothing pending (as
after Failed, TimedOut and Error) does nothing more. -/
theorem closePaymentModal_spec (c : Checkout) (σ : PollSession) :
    closePaymentModal c =
      { c with
        isModalActive := false
        paymentCheckModalActive := false
        completeSaleModalDisplay := "flex" } ∧
    (∀ e : SessionEvent,
      (sessionStep (closePaymentModal c) σ e).isSome = (sessionStep c σ e).isSome) ∧
    (σ.pollTimer = false → σ.inFlight = false → σ.completionTimer = false →
      ∀ e : SessionEvent, sessionStep (closePaymentModal c) σ e = none) ∧
    (σ.pollTimer = true →
      ∃ next, sessionStep (closePaymentModal c) σ .pollTimerFires = some next ∧
        next.1.requests = c.requests ++ [.status (statusUrl σ.transactionReference)] ∧
        next.2.inFlight = true) ∧
    (σ.inFlight = true →
      ∀ r : PollResponse,
        ∃ next, sessionStep (closePaymentModal c) σ (.response r) = some next ∧
          next.1.payment = (pollResponse c σ r).1.payment ∧
          next.2 = (pollResponse c σ r).2) ∧
    (σ.completionTimer = true →
      ∃ next, sessionStep (closePaymentModal c) σ .completionTimerFires = some next ∧
        next.1.isModalActive = true ∧ next.1.printerModalActive = true ∧
        next.1.paymentCheckModalActive = false ∧
        next.1.requests = c.requests ++
          [.completeSaleAfterPayment
            [("csrfmiddlewaretoken", c.csrfToken), ("action", "complete_sale"),
              ("payment_method", "M-PESA"),
              ("transaction_reference", σ.transactionReference)]]) ∧
    (∀ r : PollResponse, (pollResponse c σ r).2.outcome = .failed ∨
        (pollResponse c σ r).2.outcome = .timedOut ∨ (pollResponse c σ r).2.outcome = .error →
      σ.outcome = .awaitingPayment → σ.completionTimer = false →
      (pollResponse c σ r).1.payment.actionsVisible = true ∧
      (pollResponse c σ r).2.pollTimer = false ∧ (pollResponse c σ r).2.inFlight = false ∧
      (pollResponse c σ r).2.completionTimer = false) := by
  refine ⟨rfl, sessionStep_closePaymentModal_isSome c σ, ?_, ?_, ?_, ?_, ?_⟩
  · intro h1 h2 h3 e
    cases e <;> simp [sessionStep, h1, h2, h3]
  · intro h
    exact ⟨pollStart (closePaymentModal c) σ, by simp [sessionStep, h], rfl, rfl⟩
  · intro h r
    exact ⟨pollResponse (closePaymentModal c) σ r, by simp [sessionStep, h], rfl, rfl⟩
  · intro h
    exact ⟨paymentReceivedTimer (closePaymentModal c) σ, by simp [sessionStep, h],
      rfl, rfl, rfl, rfl⟩
  · intro r hout hs hct
    cases r with
    | parsed status message =>
      simp only [pollResponse, onPollResponse] at hout ⊢
      split_ifs at hout ⊢ <;> simp_all
    | error =>
      simp only [pollResponse, onPollResponse] at hout ⊢
      split_ifs at hout ⊢ <;> simp_all

/-! ### The delivery panel -/

/-- In a list with no item selected, `markSelected` selects exactly the first item with
the id. -/
theorem markSelected_spec (id : String) (items : List DeliveryItem)
    (hclear : ∀ it ∈ items, it.selected = false)
    (hex : ∃ it ∈ items, it.dataId = id) :
    ∃ marked, markSelected id items = some marked ∧
      marked.map (fun it => it.dataId) = items.map (fun it => it.dataId) ∧
      marked.countP (fun it => it.selected) = 1 ∧
      ∀ it ∈ marked, it.selected = true → it.dataId = id := by
  induction items with
  | nil =>
    obtain ⟨it, hit, _⟩ := hex
    cases hit
  | cons a rest ih =>
    have hrest : ∀ it ∈ rest, it.selected = false :=
      fun it hit => hclear it (List.mem_cons_of_mem _ hit)
    have hcount0 : rest.countP (fun it => it.selected) = 0 := by
      apply List.countP_eq_zero.mpr
      intro it hit
      simp [hrest it hit]
    by_cases ha : a.dataId = id
    · refine ⟨{ a with selected := true } :: rest, by simp [markSelected, ha], rfl, ?_, ?_⟩
      · simp [List.countP_cons, hcount0]
      · intro it hit hsel
        rcases List.mem_cons.mp hit with rfl | hit
        · exact ha
        · rw [hrest it hit] at hsel
          cases hsel
    · have hex2 : ∃ it ∈ rest, it.dataId = id := by
        obtain ⟨it, hit, hid⟩ := hex
        rcases List.mem_cons.mp hit with rfl | hit
        · exact absurd hid ha
        · exact ⟨it, hit, hid⟩
      obtain ⟨marked, hm, hids, hcount, hsel⟩ := ih hrest hex2
      have hasel : a.selected = false := hclear a (List.mem_cons_self _ _)
      refine ⟨a :: marked, by simp [markSelected, ha, hm], by simp [hids], ?_, ?_⟩
      · simp [List.countP_cons, hcount, hasel]
      · intro it hit hs
        rcases List.mem_cons.mp hit with rfl | hit
        · rw [hasel] at hs
          cases hs
        · exact hsel it hit hs

/-- C18: `selectDeliveryGuy` with the busy flag shows an error and leaves the selected id,
the marking of the items, the address form and the assign button as they were. Without
the busy flag, for an id that is in the list (the item whose click calls the function),
afterwards exactly one item is marked selected and it has the given id, the selected id
is the given id, the form is shown and the assign button is enabled. -/
theorem selectDeliveryGuy_spec (d : DeliveryPanel) (id name : String)
    (hex : ∃ it ∈ d.items, it.dataId = id) :
    ((selectDeliveryGuy d id name true).selectedDeliveryGuyId = d.selectedDeliveryGuyId ∧
      (selectDeliveryGuy d id name true).items = d.items ∧
      (selectDeliveryGuy d id name true).formSectionDisplay = d.formSectionDisplay ∧
      (selectDeliveryGuy d id name true).assignBtnDisabled = d.assignBtnDisabled ∧
      (selectDeliveryGuy d id name true).notifications = d.notifications ++
        [{ message := "This delivery guy is currently busy with another delivery",
           kind := "error" }]) ∧
    ((selectDeliveryGuy d id name false).items.countP (fun it => it.selected) = 1 ∧
      (∀ it ∈ (selectDeliveryGuy d id name false).items, it.selected = true → it.dataId = id) ∧
      (selectDeliveryGuy d id name false).items.map (fun it => it.dataId) =
        d.items.map (fun it => it.dataId) ∧
      (selectDeliveryGuy d id name false).selectedDeliveryGuyId = id ∧
      (selectDeliveryGuy d id name false).formSectionDisplay = "block" ∧
      (selectDeliveryGuy d id name false).assignBtnDisabled = false) := by
  constructor
  · exact ⟨rfl, rfl, rfl, rfl, rfl⟩
  · have hclear : ∀ it ∈ d.items.map (fun it => { it with selected := false }),
        it.selected = false := by
      intro it hit
      obtain ⟨x, _, rfl⟩ := List.mem_map.mp hit
      rfl
    have hex2 : ∃ it ∈ d.items.map (fun it => ({ it with selected := false } : DeliveryItem)),
        it.dataId = id := by
      obtain ⟨x, hx, hid⟩ := hex
      exact ⟨{ x with selected := false }, List.mem_map.mpr ⟨x, hx, rfl⟩, hid⟩
    obtain ⟨marked, hm, hids, hcount, hsel⟩ := markSelected_spec id _ hclear hex2
    have e : selectDeliveryGuy d id name false =
        { d with
          items := marked
          selectedDeliveryGuyId := id
          formSectionDisplay := "block"
          assignBtnDisabled := false
          notifications := d.notifications ++
            [{ message := "Selected: " ++ name, kind := "info" }] } := by
      simp [selectDeliveryGuy, hm]
    rw [e]
    refine ⟨hcount, hsel, ?_, rfl, rfl, rfl⟩
    simp only [hids, List.map_map]
    rfl

/-- C18 on the list of the example: agent 3 is picked while agent 2 was selected; busy,
nothing changes; available, agent 3 alone is marked. -/
theorem selectDeliveryGuy_spec_witness :
    (selectDeliveryGuy samplePanel "3" "Asha" true).items = samplePanel.items ∧
    (selectDeliveryGuy samplePanel "3" "Asha" false).items.countP (fun it => it.selected) = 1 ∧
    (selectDeliveryGuy samplePanel "3" "Asha" false).selectedDeliveryGuyId = "3" :=
  have h := selectDeliveryGuy_spec samplePanel "3" "Asha"
    ⟨{ dataId := "3", selected := false }, by decide, rfl⟩
  ⟨h.1.2.1, h.2.1, h.2.2.2.2.1⟩

end BeiZuriPos
